import Mathlib

/-!
# PISM-PIK: the SSA finite-element core and the PICO ocean model

A shallow embedding of parts of PISM-PIK.

* `pism.stressbalance.SSAFEM` embeds the class declared in
  `src/base/stressbalance/ssa/SSAFEM.hh`.  Only the declaration of the class is
  among the sources, so the bodies of its member functions are modelled from the
  specification; every such definition says so in its doc comment.
* `pism.ocean.Pico` embeds `src/coupler/ocean/Pico.cc`.
* `pism.surface.PIK` embeds `src/coupler/surface/ConstantPIK.cc`.
* `pclimate` embeds the function `writePCCStateAtTimes` of `src/pclimate.cc`.

Conventions of the embedding.

* A C++ `double` is an element of a linearly ordered field `R` (the rationals
  when a definition is evaluated, the reals where a transcendental function is
  needed).  Rounding, infinities and NaN are not modelled, and division by zero
  follows the convention of `R` (the quotient is `0`).
* A C++ `int` is an `Int`.
* A two-dimensional field (`IceModelVec2S`, `IceModelVec2Int`, ...) is a
  function of the cell indices `i j : Int`; the loop `for (Points p(*m_grid); ...)`
  is a left fold over the list of the grid's points.
* A `std::vector` indexed by an `int` is a function of that index.
* One process owns the whole grid, so `GlobalSum` returns its argument.
* Calls of `m_log->message` do not change the state and are left out.
-/

namespace pism

/-- The two-component vector of `util/Vector2.hh`, used for velocities and
driving stresses. -/
structure Vector2 (R : Type) where
  u : R
  v : R

/-- The macro `PetscSqr` of PETSc (not among the sources): the square of its
argument. -/
def PetscSqr {R : Type} [Mul R] (x : R) : R := x * x

/-- A two-dimensional field on the grid, indexed by the cell `(i, j)`. -/
abbrev Field (A : Type) : Type := Int → Int → A

/-- The assignment `f(i, j) = x` to one cell of a field. -/
def Field.set {A : Type} (f : Field A) (i j : Int) (x : A) : Field A :=
  fun a b => if a = i ∧ b = j then x else f a b

/-- The assignment `v[k] = x` to one entry of a vector indexed by an `int`. -/
def vecSet {A : Type} (v : Int → A) (k : Int) (x : A) : Int → A :=
  fun a => if a = k then x else v a

/-! ## The SSA finite-element solver -/

namespace stressbalance

/-- Storage for SSA coefficients at a quadrature point
(`SSAFEM::Coefficients`, SSAFEM.hh lines 49-63). -/
structure SSAFEM.Coefficients (R : Type) where
  /-- ice thickness -/
  H : R
  /-- basal yield stress -/
  tauc : R
  /-- bed elevation -/
  b : R
  /-- ice hardness -/
  B : R
  /-- prescribed gravitational driving stress -/
  driving_stress : Vector2 R
  /-- mask used to choose basal conditions -/
  mask : Int

/-- The data members of `SSAFEM` that hold numbers (SSAFEM.hh lines 96-100). -/
structure SSAFEM (R : Type) where
  m_coefficients : List (SSAFEM.Coefficients R)
  m_dirichletScale : R
  m_ocean_rho : R
  m_beta_ice_free_bedrock : R
  m_epsilon_ssa : R

namespace SSAFEM

/-- The value outputs of `PointwiseNuHAndBeta`. -/
structure NuHAndBeta (R : Type) where
  nuH : R
  beta : R

/-- The parts of the constitutive evaluation that live outside `SSAFEM`: the
flow-law exponent `n`, the second invariant of the strain rate `Du`, the mask
predicate for ice-free bedrock and the pseudo-plastic sliding law (a function of
the yield stress and of the velocity magnitude).  None of them is among the
sources, so they are parameters. -/
structure Constitutive where
  n : ℝ
  secondInvariant : List ℝ → ℝ
  ice_free_bedrock : Int → Bool
  sliding_law : ℝ → ℝ → ℝ

/-- Modelled from the spec: the body of `SSAFEM::PointwiseNuHAndBeta`, which
SSAFEM.hh (lines 65-68) only declares.  Following section 4.4,
`nuH = 0.5 * B * H * (eps0 + secondInvariant(Du))^((1-n)/(2n))` with the
regularization `eps0 = m_epsilon_ssa`, and `beta` is the value of the sliding
law at the yield stress and the velocity magnitude, replaced by
`m_beta_ice_free_bedrock` where the mask indicates ice-free bedrock.  The spec
gives no formula for the derivative outputs `dnuH` and `dbeta`; they are not
modelled. -/
noncomputable def PointwiseNuHAndBeta (ssa : SSAFEM ℝ) (law : Constitutive)
    (coefficients : Coefficients ℝ) (u : Vector2 ℝ) (Du : List ℝ) : NuHAndBeta ℝ :=
  { nuH := 0.5 * coefficients.B * coefficients.H *
      (ssa.m_epsilon_ssa + law.secondInvariant Du) ^ ((1 - law.n) / (2 * law.n))
    beta :=
      if law.ice_free_bedrock coefficients.mask then ssa.m_beta_ice_free_bedrock
      else law.sliding_law coefficients.tauc (Real.sqrt (u.u * u.u + u.v * u.v)) }

/-- Modelled from the spec: an element (section 3) with the global indices of
its four corner nodes and of its eight local degrees of freedom (two velocity
components at each corner), as given by the DOF map of section 4.2 (FETools.hh
is not among the sources). -/
structure Element where
  node : Fin 4 → Nat
  dof : Fin 8 → Nat

/-- Modelled from the spec: the Dirichlet data of the DOF map (section 4.2):
which global degrees of freedom are prescribed, and their prescribed values. -/
structure Dirichlet (R : Type) where
  is_dirichlet : Nat → Bool
  prescribed : Nat → R

/-- Scatter-add of the eight local entries of one element into a global
vector. -/
def scatter_add {R : Type} [Add R] (e : Element) (loc : Fin 8 → R)
    (glob : Nat → R) : Nat → R :=
  (List.finRange 8).foldl
    (fun g k => fun d => if d = e.dof k then g d + loc k else g d) glob

/-- Scatter-add of the 8 x 8 local block of one element into a global matrix. -/
def scatter_add_block {R : Type} [Add R] (e : Element) (loc : Fin 8 → Fin 8 → R)
    (glob : Nat → Nat → R) : Nat → Nat → R :=
  (List.finRange 8).foldl
    (fun g a => (List.finRange 8).foldl
      (fun g b => fun r c =>
        if r = e.dof a ∧ c = e.dof b then g r c + loc a b else g r c) g) glob

/-- Modelled from the spec: `SSAFEM::compute_local_function` (declared in
SSAFEM.hh lines 70-71), following section 4.5.  The residual starts at zero,
every element scatter-adds its eight local entries (`local_residual`, the
quadrature of the weak form, is a parameter: the spec gives no formula for it),
and after the element accumulation every Dirichlet row is overwritten with
`dirichletScale * (u_current - u_prescribed)`. -/
def compute_local_function {R : Type} [LinearOrderedField R] (ssa : SSAFEM R)
    (bc : Dirichlet R) (elements : List Element)
    (local_residual : Element → (Nat → R) → Fin 8 → R)
    (velocity : Nat → R) : Nat → R :=
  let accumulated : Nat → R :=
    elements.foldl (fun res e => scatter_add e (local_residual e velocity) res)
      (fun _ => 0)
  fun d =>
    if bc.is_dirichlet d then ssa.m_dirichletScale * (velocity d - bc.prescribed d)
    else accumulated d

/-- Modelled from the spec: `SSAFEM::compute_local_jacobian` (declared in
SSAFEM.hh line 73), following section 4.6.  The matrix starts at zero, every
element scatter-adds its 8 x 8 local block (`local_jacobian` is a parameter),
and the rows and columns of Dirichlet degrees of freedom are replaced by a
scaled identity: diagonal entry `dirichletScale`, every other entry of the row
and of the column zero. -/
def compute_local_jacobian {R : Type} [LinearOrderedField R] (ssa : SSAFEM R)
    (bc : Dirichlet R) (elements : List Element)
    (local_jacobian : Element → (Nat → R) → Fin 8 → Fin 8 → R)
    (velocity : Nat → R) : Nat → Nat → R :=
  let accumulated : Nat → Nat → R :=
    elements.foldl (fun J e => scatter_add_block e (local_jacobian e velocity) J)
      (fun _ _ => 0)
  fun r c =>
    if bc.is_dirichlet r ∨ bc.is_dirichlet c then
      (if r = c then ssa.m_dirichletScale else 0)
    else accumulated r c

/-- Modelled from the spec: the node-centred physical input fields of section 6,
indexed by the global node index. -/
structure InputFields (R : Type) where
  thickness : Nat → R
  tauc : Nat → R
  bed_elevation : Nat → R
  hardness : Nat → R
  driving_stress : Nat → Vector2 R
  mask : Nat → Int

/-- Modelled from the spec: the scalar quadrature of section 4.1 (FETools.hh is
not among the sources): the number `Nq` of quadrature points of an element, the
value `psi q k` of the bilinear shape function of corner `k` at quadrature
point `q`, and the corner `dominant q` that contributes most at `q`. -/
structure Quadrature (R : Type) where
  Nq : Nat
  psi : Nat → Fin 4 → R
  dominant : Nat → Fin 4

/-- Bilinear interpolation of a nodal field to quadrature point `q` of
element `e`. -/
def interpolate {R : Type} [LinearOrderedField R] (quad : Quadrature R)
    (e : Element) (q : Nat) (f : Nat → R) : R :=
  quad.psi q 0 * f (e.node 0) + quad.psi q 1 * f (e.node 1) +
    quad.psi q 2 * f (e.node 2) + quad.psi q 3 * f (e.node 3)

/-- Modelled from the spec: the Coefficients at quadrature point `q` of element
`e` (section 4.3): bilinear interpolation of the nodal values, except for the
integer mask, which takes the value at the dominant contributing node. -/
def coefficients_at {R : Type} [LinearOrderedField R] (fields : InputFields R)
    (quad : Quadrature R) (e : Element) (q : Nat) : Coefficients R :=
  { H := interpolate quad e q fields.thickness
    tauc := interpolate quad e q fields.tauc
    b := interpolate quad e q fields.bed_elevation
    B := interpolate quad e q fields.hardness
    driving_stress :=
      { u := interpolate quad e q (fun k => (fields.driving_stress k).u)
        v := interpolate quad e q (fun k => (fields.driving_stress k).v) }
    mask := fields.mask (e.node (quad.dominant q)) }

/-- The loop over the quadrature points of element number `ei`: entry
`ei * Nq + q` of the coefficient array is overwritten in place. -/
def cache_element {R : Type} [LinearOrderedField R] (fields : InputFields R)
    (quad : Quadrature R) (e : Element) (ei : Nat)
    (coeffs : List (Coefficients R)) : List (Coefficients R) :=
  (List.range quad.Nq).foldl
    (fun cs q => cs.set (ei * quad.Nq + q) (coefficients_at fields quad e q)) coeffs

/-- The loop over the elements, `ei` being the number of the first element of
the list. -/
def cache_elements {R : Type} [LinearOrderedField R] (fields : InputFields R)
    (quad : Quadrature R) :
    List Element → Nat → List (Coefficients R) → List (Coefficients R)
  | [], _, coeffs => coeffs
  | e :: rest, ei, coeffs =>
    cache_elements fields quad rest (ei + 1) (cache_element fields quad e ei coeffs)

/-- Modelled from the spec: `SSAFEM::cache_inputs` (declared in SSAFEM.hh
line 47), the `prepare()` of sections 4.3 and 4.7.  The array `m_coefficients`,
owned by the solver, is rebuilt in place: for every element and every
quadrature point the entry is overwritten with the Coefficients interpolated
from the current input fields. -/
def cache_inputs {R : Type} [LinearOrderedField R] (fields : InputFields R)
    (quad : Quadrature R) (elements : List Element) (ssa : SSAFEM R) : SSAFEM R :=
  { ssa with m_coefficients := cache_elements fields quad elements 0 ssa.m_coefficients }

/-- Modelled from the spec: the outcome of a nonlinear solve (section 3;
base/util/TerminationReason.hh is not among the sources), without its detail
string. -/
inductive TerminationReason where
  | converged
  | max_iterations_exceeded
  | line_search_failure
  | linear_solve_failure
  | diverged
  deriving DecidableEq, Repr

/-- The result of one Newton step of the external service: the next iterate, or
the failure of the line search or of the linear solve. -/
inductive StepOutcome (V : Type) where
  | next (u : V)
  | line_search_failure
  | linear_solve_failure

/-- Modelled from the spec: the external Newton-Krylov service of sections 4.7,
5 and 6, reduced to what the driver sees: the hard iteration cap `max_it`, the
convergence criterion on an iterate, the divergence detector (residual norm
growth or NaN) comparing the previous iterate with the new one, and one Newton
step (Jacobian assembly, Krylov solve and line search). -/
structure NewtonKrylov (V : Type) where
  max_it : Nat
  converged : V → Bool
  diverged : V → V → Bool
  step : V → StepOutcome V

/-- The Newton iterations, `remaining` being the number of iterations left
before the cap: each iteration takes one step and then tests the new iterate
for convergence and for divergence. -/
def newton_iterations {V : Type} (snes : NewtonKrylov V) :
    Nat → V → TerminationReason × V
  | 0, u => (TerminationReason.max_iterations_exceeded, u)
  | remaining + 1, u =>
    match snes.step u with
    | StepOutcome.line_search_failure => (TerminationReason.line_search_failure, u)
    | StepOutcome.linear_solve_failure => (TerminationReason.linear_solve_failure, u)
    | StepOutcome.next u1 =>
      if snes.converged u1 then (TerminationReason.converged, u1)
      else if snes.diverged u u1 then (TerminationReason.diverged, u1)
      else newton_iterations snes remaining u1

/-- Modelled from the spec: `SSAFEM::solve_nocache` (declared in SSAFEM.hh
line 79), the `solve()` of section 4.7 on already cached coefficients: the
initial iterate is tested for convergence, then at most `max_it` Newton
iterations are taken.  Returns the reason together with the final iterate. -/
def solve_nocache {V : Type} (snes : NewtonKrylov V) (u0 : V) :
    TerminationReason × V :=
  if snes.converged u0 then (TerminationReason.converged, u0)
  else newton_iterations snes snes.max_it u0

/-- Modelled from the spec: `SSAFEM::solve_with_reason` (declared in SSAFEM.hh
line 77): `prepare()` followed by `solve()` (section 4.7).  The service may
depend on the cached coefficients. -/
def solve_with_reason {R V : Type} [LinearOrderedField R] (fields : InputFields R)
    (quad : Quadrature R) (elements : List Element)
    (snes : List (Coefficients R) → NewtonKrylov V) (ssa : SSAFEM R) (u0 : V) :
    SSAFEM R × (TerminationReason × V) :=
  let ssa1 := cache_inputs fields quad elements ssa
  (ssa1, solve_nocache (snes ssa1.m_coefficients) u0)

end SSAFEM
end stressbalance
end pism

/-! ## The PICO ocean model -/

namespace pism
namespace ocean

/-- The values of `k` visited by `for (int k = lo; k < hi; k++)`. -/
def intRange (lo hi : Int) : List Int :=
  (List.range (hi - lo).toNat).map (fun k => lo + (k : Int))

/-- The configuration entries read by `Pico::Constants::Constants` (the class
`Config` is not among the sources): every entry is the value returned by
`config.get_double` for the key of the same name, the two counts already cast
to `int`. -/
structure Config (R : Type) where
  number_of_basins : Int
  number_of_boxes : Int
  continental_shelf_depth : R
  melting_point_temperature : R
  standard_gravity : R
  ice_density : R
  sea_water_density : R
  latent_heat_of_fusion : R
  heat_exchange_coefficent : R
  overturning_coefficent : R
  pik_melt_factor : R

/-- The members of `Pico::Constants` (Pico.cc lines 48-100). -/
structure Pico.Constants (R : Type) where
  default_numberOfBasins : Int
  default_numberOfBoxes : Int
  continental_shelf_depth : R
  T_dummy : R
  S_dummy : R
  earth_grav : R
  rhoi : R
  rhow : R
  rho_star : R
  nu : R
  latentHeat : R
  c_p_ocean : R
  lambda : R
  a : R
  b : R
  c : R
  as : R
  bs : R
  cs : R
  alpha : R
  beta : R
  default_gamma_T : R
  default_overturning_coeff : R
  meltFactor : R

set_option linter.dupNamespace false in
/-- The constructor `Pico::Constants::Constants(const Config &config)`
(Pico.cc lines 48-100). -/
def Pico.Constants.Constants {R : Type} [LinearOrderedField R] (config : Config R) :
    Pico.Constants R :=
  { default_numberOfBasins := config.number_of_basins
    default_numberOfBoxes := config.number_of_boxes
    continental_shelf_depth := config.continental_shelf_depth
    T_dummy := -1.5 + config.melting_point_temperature
    S_dummy := 34.7
    earth_grav := config.standard_gravity
    rhoi := config.ice_density
    rhow := config.sea_water_density
    rho_star := 1033
    nu := config.ice_density / config.sea_water_density
    latentHeat := config.latent_heat_of_fusion
    c_p_ocean := 3974.0
    lambda := config.latent_heat_of_fusion / 3974.0
    a := -0.0572
    b := 0.0788 + 273.15
    c := 7.77e-4
    as := -0.0573
    bs := 0.0832 + 273.15
    cs := 7.53e-4
    alpha := 7.5e-5
    beta := 7.7e-4
    default_gamma_T := config.heat_exchange_coefficent
    default_overturning_coeff := config.overturning_coefficent
    meltFactor := config.pik_melt_factor }

/-- The state of a `Pico` object: its data members (declared in Pico.hh, which is
not among the sources, and created in the constructor, Pico.cc lines 111-221),
the fields of the parent ocean model that `update_impl` writes, and the two
variables of the grid it reads (`land_ice_thickness` and the cell-type `mask`).
`grid` lists the points visited by `Points p(*m_grid)`; `maskfloating`,
`maskocean`, `maskgrounded` and `imask_inner` are the integer constants of the
same names. -/
structure Pico (R : Type) where
  grid : List (Int × Int)
  dx : R
  dy : R
  m_t : R
  m_dt : R
  exicerises_set : Bool
  maskfloating : Int
  maskocean : Int
  maskgrounded : Int
  imask_inner : Int
  numberOfBasins : Int
  numberOfBoxes : Int
  numberOfShelves : Int
  gamma_T : R
  overturning_coeff : R
  continental_shelf_depth : R
  ice_thickness : Field R
  mask : Field Int
  m_theta_ocean : Field R
  m_salinity_ocean : Field R
  cbasins : Field Int
  shelf_mask : Field Int
  ocean_box_mask : Field Int
  icerise_mask : Field Int
  ocean_contshelf_mask : Field Int
  ocean_mask : Field Int
  lake_mask : Field Int
  DistGL : Field Int
  DistIF : Field Int
  Soc : Field R
  Soc_box0 : Field R
  Toc : Field R
  Toc_box0 : Field R
  T_star : Field R
  overturning : Field R
  basalmeltrate_shelf : Field R
  T_pressure_melting : Field R
  Toc_box0_vec : Int → R
  Soc_box0_vec : Int → R
  counter_boxes : Int → Int → R
  mean_salinity_boundary_vector : Int → R
  mean_temperature_boundary_vector : Int → R
  mean_overturning_box1_vector : Int → R
  m_shelf_base_temperature : Field R
  m_shelf_base_mass_flux : Field R
  m_sea_level_elevation : Field R
  m_melange_back_pressure_fraction : Field R

namespace Pico

variable {R : Type} [LinearOrderedField R]

/-! ### `compute_ocean_input_per_basin` (Pico.cc lines 389-461) -/

/-- The local vectors `lm_count`, `lm_Sval` and `lm_Tval`. -/
structure BasinSums (R : Type) where
  lm_count : Int → R
  lm_Sval : Int → R
  lm_Tval : Int → R

/-- The body of the loop over the grid points (lines 417-427). -/
def compute_ocean_input_per_basin_cell (s : Pico R) (l : BasinSums R)
    (p : Int × Int) : BasinSums R :=
  let i := p.1
  let j := p.2
  if s.ocean_contshelf_mask i j = s.imask_inner then
    let shelf_id := s.cbasins i j
    { lm_count := vecSet l.lm_count shelf_id (l.lm_count shelf_id + 1)
      lm_Sval := vecSet l.lm_Sval shelf_id (l.lm_Sval shelf_id + s.m_salinity_ocean i j)
      lm_Tval := vecSet l.lm_Tval shelf_id (l.lm_Tval shelf_id + s.m_theta_ocean i j) }
  else l

/-- The body of the loop over the basins (lines 433-459). -/
def compute_ocean_input_per_basin_basin (cc : Constants R) (l : BasinSums R)
    (s : Pico R) (shelf_id : Int) : Pico R :=
  let m_count := l.lm_count shelf_id
  let m_Sval := l.lm_Sval shelf_id
  let m_Tval := l.lm_Tval shelf_id
  if 0 < shelf_id ∧ m_count = 0 then
    { s with
      Toc_box0_vec := vecSet s.Toc_box0_vec shelf_id cc.T_dummy
      Soc_box0_vec := vecSet s.Soc_box0_vec shelf_id cc.S_dummy }
  else
    let m_Sval := m_Sval / m_count
    let m_Tval := m_Tval / m_count
    { s with
      Toc_box0_vec := vecSet s.Toc_box0_vec shelf_id m_Tval
      Soc_box0_vec := vecSet s.Soc_box0_vec shelf_id m_Sval }

/-- The function `Pico::compute_ocean_input_per_basin`. -/
def compute_ocean_input_per_basin (cc : Constants R) (s : Pico R) : Pico R :=
  let sums : BasinSums R :=
    s.grid.foldl (compute_ocean_input_per_basin_cell s)
      { lm_count := fun _ => 0, lm_Sval := fun _ => 0, lm_Tval := fun _ => 0 }
  (intRange 0 s.numberOfBasins).foldl (compute_ocean_input_per_basin_basin cc sums) s

/-! ### `set_ocean_input_fields` (Pico.cc lines 475-567) -/

/-- The local counters `lcounter_shelf_cells_in_basin` and
`lcounter_shelf_cells`. -/
structure ShelfCounters (R : Type) where
  lcounter_shelf_cells_in_basin : Int → Int → R
  lcounter_shelf_cells : Int → R

/-- The body of the counting loop (lines 507-513). -/
def set_ocean_input_fields_count (s : Pico R) (l : ShelfCounters R)
    (p : Int × Int) : ShelfCounters R :=
  let i := p.1
  let j := p.2
  let shelf_id := s.shelf_mask i j
  let basin_id := s.cbasins i j
  { lcounter_shelf_cells_in_basin :=
      Field.set l.lcounter_shelf_cells_in_basin shelf_id basin_id
        (l.lcounter_shelf_cells_in_basin shelf_id basin_id + 1)
    lcounter_shelf_cells :=
      vecSet l.lcounter_shelf_cells shelf_id (l.lcounter_shelf_cells shelf_id + 1) }

/-- The body of the loop that sets the input of box 1 (lines 527-559); the
second component of the state is `lcounterTpmp`. -/
def set_ocean_input_fields_cell (cc : Constants R) (counter : ShelfCounters R)
    (st : Pico R × R) (p : Int × Int) : Pico R × R :=
  let i := p.1
  let j := p.2
  let s := st.1
  let lcounterTpmp := st.2
  let s := { s with
    Toc := Field.set s.Toc i j 273.15
    Toc_box0 := Field.set s.Toc_box0 i j 0.0
    Soc_box0 := Field.set s.Soc_box0 i j 0.0 }
  if s.mask i j = s.maskfloating ∧ 0 < s.shelf_mask i j then
    let shelf_id := s.shelf_mask i j
    let s := (intRange 1 s.numberOfBasins).foldl
      (fun (s : Pico R) basin_id => { s with
        Toc_box0 := Field.set s.Toc_box0 i j
          (s.Toc_box0 i j + s.Toc_box0_vec basin_id *
            counter.lcounter_shelf_cells_in_basin shelf_id basin_id /
            counter.lcounter_shelf_cells shelf_id)
        Soc_box0 := Field.set s.Soc_box0 i j
          (s.Soc_box0 i j + s.Soc_box0_vec basin_id *
            counter.lcounter_shelf_cells_in_basin shelf_id basin_id /
            counter.lcounter_shelf_cells shelf_id) }) s
    let pressure := cc.rhoi * cc.earth_grav * s.ice_thickness i j * 1e-4
    let T_pmt := cc.a * s.Soc_box0 i j + cc.b - cc.c * pressure
    if s.Toc_box0 i j < T_pmt then
      ({ s with Toc_box0 := Field.set s.Toc_box0 i j (T_pmt + 0.001) }, lcounterTpmp + 1)
    else (s, lcounterTpmp)
  else (s, lcounterTpmp)

/-- The function `Pico::set_ocean_input_fields`. -/
def set_ocean_input_fields (cc : Constants R) (s : Pico R) : Pico R :=
  let counter : ShelfCounters R :=
    s.grid.foldl (set_ocean_input_fields_count s)
      { lcounter_shelf_cells_in_basin := fun _ _ => 0, lcounter_shelf_cells := fun _ => 0 }
  (s.grid.foldl (set_ocean_input_fields_cell cc counter) (s, 0)).1

/-! ### `calculate_basal_melt_box1` (Pico.cc lines 576-733) -/

/-- The local vectors and the local counter of `calculate_basal_melt_box1`. -/
structure Box1Sums (R : Type) where
  lcounter_edge_of_box1_vector : Int → R
  lmean_salinity_box1_vector : Int → R
  lmean_temperature_box1_vector : Int → R
  lmean_meltrate_box1_vector : Int → R
  lmean_overturning_box1_vector : Int → R
  lcountHelpterm : R

/-- What the body of the loop computes at a box-1 cell of an ice shelf
(lines 638-694): the local variables of the p-q formula and the values written
to the fields.  `negative` records whether the branch of line 656 is taken,
`q_coeff_used` is the value of `q_coeff` after that branch and `sqrt_argument`
is the argument passed to `sqrt` in line 669. -/
structure Box1Cell (R : Type) where
  T_star : R
  p_coeff : R
  q_coeff : R
  negative : Bool
  q_coeff_used : R
  sqrt_argument : R
  Toc : R
  Soc : R
  basalmeltrate_shelf : R
  overturning : R
  T_pressure_melting : R

/-- The computation of lines 638-694 at the cell `(i, j)`; `sqrt` is the square
root of the C library. -/
def box1_cell (sqrt : R → R) (cc : Constants R) (s : Pico R) (i j : Int) :
    Box1Cell R :=
  let shelf_id := s.shelf_mask i j
  let pressure := cc.rhoi * cc.earth_grav * s.ice_thickness i j * 1e-4
  let T_star := cc.a * s.Soc_box0 i j + cc.b - cc.c * pressure - s.Toc_box0 i j
  let area_box1 := s.counter_boxes shelf_id 1 * s.dx * s.dy
  let g1 := area_box1 * s.gamma_T
  let s1 := s.Soc_box0 i j / (cc.nu * cc.lambda)
  let p_coeff := g1 / (s.overturning_coeff * cc.rho_star * (cc.beta * s1 - cc.alpha))
  let q_coeff := (g1 * T_star) /
    (s.overturning_coeff * cc.rho_star * (cc.beta * s1 - cc.alpha))
  let negative : Bool := decide (0.25 * PetscSqr p_coeff - q_coeff < 0.0)
  let q_coeff_used := if negative then 0.25 * PetscSqr p_coeff else q_coeff
  let Toc := s.Toc_box0 i j -
    (-0.5 * p_coeff + sqrt (0.25 * PetscSqr p_coeff - q_coeff_used))
  let Soc := s.Soc_box0 i j -
    (s.Soc_box0 i j / (cc.nu * cc.lambda)) * (s.Toc_box0 i j - Toc)
  let potential_pressure_melting_point := cc.a * Soc + cc.b - cc.c * pressure
  let basalmeltrate_shelf := (-s.gamma_T / (cc.nu * cc.lambda)) *
    (potential_pressure_melting_point - Toc)
  let overturning := s.overturning_coeff * cc.rho_star *
    (cc.beta * (s.Soc_box0 i j - Soc) - cc.alpha * (s.Toc_box0 i j - Toc))
  { T_star := T_star
    p_coeff := p_coeff
    q_coeff := q_coeff
    negative := negative
    q_coeff_used := q_coeff_used
    sqrt_argument := 0.25 * PetscSqr p_coeff - q_coeff_used
    Toc := Toc
    Soc := Soc
    basalmeltrate_shelf := basalmeltrate_shelf
    overturning := overturning
    T_pressure_melting := cc.as * Soc + cc.bs - cc.cs * pressure }

/-- The body of the loop over the grid points (lines 622-699). -/
def calculate_basal_melt_box1_cell (sqrt : R → R) (cc : Constants R)
    (st : Pico R × Box1Sums R) (p : Int × Int) : Pico R × Box1Sums R :=
  let i := p.1
  let j := p.2
  let s := st.1
  let l := st.2
  let shelf_id := s.shelf_mask i j
  let s := { s with
    T_star := Field.set s.T_star i j 0.0
    Toc := Field.set s.Toc i j 273.15
    Soc := Field.set s.Soc i j 0.0
    basalmeltrate_shelf := Field.set s.basalmeltrate_shelf i j 0.0
    overturning := Field.set s.overturning i j 0.0
    T_pressure_melting := Field.set s.T_pressure_melting i j 0.0 }
  if s.ocean_box_mask i j = 1 ∧ 0 < shelf_id then
    let cell := box1_cell sqrt cc s i j
    ({ s with
        T_star := Field.set s.T_star i j cell.T_star
        Toc := Field.set s.Toc i j cell.Toc
        Soc := Field.set s.Soc i j cell.Soc
        basalmeltrate_shelf := Field.set s.basalmeltrate_shelf i j cell.basalmeltrate_shelf
        overturning := Field.set s.overturning i j cell.overturning
        T_pressure_melting := Field.set s.T_pressure_melting i j cell.T_pressure_melting },
      { lcounter_edge_of_box1_vector :=
          vecSet l.lcounter_edge_of_box1_vector shelf_id
            (l.lcounter_edge_of_box1_vector shelf_id + 1)
        lmean_salinity_box1_vector :=
          vecSet l.lmean_salinity_box1_vector shelf_id
            (l.lmean_salinity_box1_vector shelf_id + cell.Soc)
        lmean_temperature_box1_vector :=
          vecSet l.lmean_temperature_box1_vector shelf_id
            (l.lmean_temperature_box1_vector shelf_id + cell.Toc)
        lmean_meltrate_box1_vector :=
          vecSet l.lmean_meltrate_box1_vector shelf_id
            (l.lmean_meltrate_box1_vector shelf_id + cell.basalmeltrate_shelf)
        lmean_overturning_box1_vector :=
          vecSet l.lmean_overturning_box1_vector shelf_id
            (l.lmean_overturning_box1_vector shelf_id + cell.overturning)
        lcountHelpterm := if cell.negative then l.lcountHelpterm + 1 else l.lcountHelpterm })
  else
    ({ s with basalmeltrate_shelf := Field.set s.basalmeltrate_shelf i j 0.0 }, l)

/-- The body of the loop over the shelves that averages over box 1
(lines 704-725). -/
def calculate_basal_melt_box1_shelf (l : Box1Sums R) (s : Pico R)
    (shelf_id : Int) : Pico R :=
  let counter_edge_of_box1_vector := l.lcounter_edge_of_box1_vector shelf_id
  let s := { s with
    mean_salinity_boundary_vector :=
      vecSet s.mean_salinity_boundary_vector shelf_id (l.lmean_salinity_box1_vector shelf_id)
    mean_temperature_boundary_vector :=
      vecSet s.mean_temperature_boundary_vector shelf_id
        (l.lmean_temperature_box1_vector shelf_id)
    mean_overturning_box1_vector :=
      vecSet s.mean_overturning_box1_vector shelf_id
        (l.lmean_overturning_box1_vector shelf_id) }
  if 0.0 < counter_edge_of_box1_vector then
    { s with
      mean_salinity_boundary_vector :=
        vecSet s.mean_salinity_boundary_vector shelf_id
          (s.mean_salinity_boundary_vector shelf_id / counter_edge_of_box1_vector)
      mean_temperature_boundary_vector :=
        vecSet s.mean_temperature_boundary_vector shelf_id
          (s.mean_temperature_boundary_vector shelf_id / counter_edge_of_box1_vector)
      mean_overturning_box1_vector :=
        vecSet s.mean_overturning_box1_vector shelf_id
          (s.mean_overturning_box1_vector shelf_id / counter_edge_of_box1_vector) }
  else
    { s with
      mean_salinity_boundary_vector := vecSet s.mean_salinity_boundary_vector shelf_id 0.0
      mean_temperature_boundary_vector :=
        vecSet s.mean_temperature_boundary_vector shelf_id 0.0
      mean_overturning_box1_vector := vecSet s.mean_overturning_box1_vector shelf_id 0.0 }

/-- The loop over the grid points of `calculate_basal_melt_box1`, started with
the local vectors and the local counter at zero (lines 586-592, 614-615 and
622-699). -/
def calculate_basal_melt_box1_loop (sqrt : R → R) (cc : Constants R) (s : Pico R) :
    Pico R × Box1Sums R :=
  s.grid.foldl (calculate_basal_melt_box1_cell sqrt cc)
    (s, { lcounter_edge_of_box1_vector := fun _ => 0.0
          lmean_salinity_box1_vector := fun _ => 0.0
          lmean_temperature_box1_vector := fun _ => 0.0
          lmean_meltrate_box1_vector := fun _ => 0.0
          lmean_overturning_box1_vector := fun _ => 0.0
          lcountHelpterm := 0 })

/-- The function `Pico::calculate_basal_melt_box1`.  The second component is
`countHelpterm`, the number of cells reported in the warning of line 729. -/
def calculate_basal_melt_box1 (sqrt : R → R) (cc : Constants R) (s : Pico R) :
    Pico R × R :=
  let st := calculate_basal_melt_box1_loop sqrt cc s
  ((intRange 0 s.numberOfShelves).foldl (calculate_basal_melt_box1_shelf st.2) st.1,
    st.2.lcountHelpterm)

/-! ### `calculate_basal_melt_other_boxes` (Pico.cc lines 742-886) -/

/-- The local vectors and the local counter of one pass of the loop over the
boxes. -/
structure BoxiSums (R : Type) where
  lmean_salinity_boxi_vector : Int → R
  lmean_temperature_boxi_vector : Int → R
  lcounter_edge_of_boxi_vector : Int → R
  lcountGl0 : R

/-- The body of the loop over the grid points for box `boxi` (lines 787-853). -/
def calculate_basal_melt_other_boxes_cell (cc : Constants R) (boxi : Int)
    (st : Pico R × BoxiSums R) (p : Int × Int) : Pico R × BoxiSums R :=
  let i := p.1
  let j := p.2
  let s := st.1
  let l := st.2
  let shelf_id := s.shelf_mask i j
  if s.ocean_box_mask i j = boxi ∧ 0 < shelf_id then
    let mean_salinity_in_boundary := s.mean_salinity_boundary_vector shelf_id
    let mean_temperature_in_boundary := s.mean_temperature_boundary_vector shelf_id
    let mean_overturning_in_box1 := s.mean_overturning_box1_vector shelf_id
    if mean_salinity_in_boundary = 0 ∨ mean_overturning_in_box1 = 0 ∨
        mean_temperature_in_boundary = 0 then
      ({ s with ocean_box_mask := Field.set s.ocean_box_mask i j (s.numberOfBoxes + 1) },
        { l with lcountGl0 := l.lcountGl0 + 1 })
    else
      let pressure := cc.rhoi * cc.earth_grav * s.ice_thickness i j * 1e-4
      let T_star := cc.a * mean_salinity_in_boundary + cc.b - cc.c * pressure -
        mean_temperature_in_boundary
      let area_boxi := s.counter_boxes shelf_id boxi * s.dx * s.dy
      let g1 := area_boxi * s.gamma_T
      let g2 := g1 / (cc.nu * cc.lambda)
      let Toc := mean_temperature_in_boundary +
        g1 * T_star / (mean_overturning_in_box1 + g1 - g2 * cc.a * mean_salinity_in_boundary)
      let Soc := mean_salinity_in_boundary -
        mean_salinity_in_boundary * (mean_temperature_in_boundary - Toc) /
          (cc.nu * cc.lambda)
      let potential_pressure_melting_point := cc.a * Soc + cc.b - cc.c * pressure
      ({ s with
          T_star := Field.set s.T_star i j T_star
          Toc := Field.set s.Toc i j Toc
          Soc := Field.set s.Soc i j Soc
          basalmeltrate_shelf := Field.set s.basalmeltrate_shelf i j
            ((-s.gamma_T / (cc.nu * cc.lambda)) * (potential_pressure_melting_point - Toc))
          T_pressure_melting := Field.set s.T_pressure_melting i j
            (cc.as * Soc + cc.bs - cc.cs * pressure) },
        { l with
          lcounter_edge_of_boxi_vector :=
            vecSet l.lcounter_edge_of_boxi_vector shelf_id
              (l.lcounter_edge_of_boxi_vector shelf_id + 1)
          lmean_salinity_boxi_vector :=
            vecSet l.lmean_salinity_boxi_vector shelf_id
              (l.lmean_salinity_boxi_vector shelf_id + Soc)
          lmean_temperature_boxi_vector :=
            vecSet l.lmean_temperature_boxi_vector shelf_id
              (l.lmean_temperature_boxi_vector shelf_id + Toc) })
  else (s, l)

/-- The body of the loop over the shelves that averages over box `boxi`
(lines 857-875). -/
def calculate_basal_melt_other_boxes_shelf (l : BoxiSums R) (s : Pico R)
    (shelf_id : Int) : Pico R :=
  let counter_edge_of_boxi_vector := l.lcounter_edge_of_boxi_vector shelf_id
  let s := { s with
    mean_salinity_boundary_vector :=
      vecSet s.mean_salinity_boundary_vector shelf_id (l.lmean_salinity_boxi_vector shelf_id)
    mean_temperature_boundary_vector :=
      vecSet s.mean_temperature_boundary_vector shelf_id
        (l.lmean_temperature_boxi_vector shelf_id) }
  if 0.0 < counter_edge_of_boxi_vector then
    { s with
      mean_salinity_boundary_vector :=
        vecSet s.mean_salinity_boundary_vector shelf_id
          (s.mean_salinity_boundary_vector shelf_id / counter_edge_of_boxi_vector)
      mean_temperature_boundary_vector :=
        vecSet s.mean_temperature_boundary_vector shelf_id
          (s.mean_temperature_boundary_vector shelf_id / counter_edge_of_boxi_vector) }
  else
    { s with
      mean_salinity_boundary_vector := vecSet s.mean_salinity_boundary_vector shelf_id 0.0
      mean_temperature_boundary_vector :=
        vecSet s.mean_temperature_boundary_vector shelf_id 0.0 }

/-- One pass of the loop over the boxes (lines 767-884). -/
def calculate_basal_melt_other_boxes_box (cc : Constants R) (s : Pico R)
    (boxi : Int) : Pico R :=
  let st := s.grid.foldl (calculate_basal_melt_other_boxes_cell cc boxi)
    (s, { lmean_salinity_boxi_vector := fun _ => 0.0
          lmean_temperature_boxi_vector := fun _ => 0.0
          lcounter_edge_of_boxi_vector := fun _ => 0.0
          lcountGl0 := 0 })
  (intRange 0 s.numberOfShelves).foldl (calculate_basal_melt_other_boxes_shelf st.2) st.1

/-- The function `Pico::calculate_basal_melt_other_boxes`. -/
def calculate_basal_melt_other_boxes (cc : Constants R) (s : Pico R) : Pico R :=
  let nBoxes := s.numberOfBoxes + 1
  (intRange 2 nBoxes).foldl (calculate_basal_melt_other_boxes_box cc) s

/-! ### `calculate_basal_melt_missing_cells` (Pico.cc lines 900-958) -/

/-- The body of the loop over the grid points (lines 918-956). -/
def calculate_basal_melt_missing_cells_cell (cc : Constants R) (s : Pico R)
    (p : Int × Int) : Pico R :=
  let i := p.1
  let j := p.2
  let shelf_id := s.shelf_mask i j
  let s :=
    if shelf_id = 0 then
      { s with basalmeltrate_shelf := Field.set s.basalmeltrate_shelf i j 0.0 }
    else s
  if 0 < shelf_id ∧ s.ocean_box_mask i j = s.numberOfBoxes + 1 then
    let s := { s with
      Toc := Field.set s.Toc i j (s.Toc_box0 i j)
      Soc := Field.set s.Soc i j (s.Soc_box0 i j) }
    let pressure := cc.rhoi * cc.earth_grav * s.ice_thickness i j * 1e-4
    let potential_pressure_melting_point := cc.a * s.Soc i j + cc.b - cc.c * pressure
    let heatflux := cc.meltFactor * cc.rhow * cc.c_p_ocean * cc.default_gamma_T *
      (s.Toc i j - potential_pressure_melting_point)
    { s with
      basalmeltrate_shelf :=
        Field.set s.basalmeltrate_shelf i j (heatflux / (cc.latentHeat * cc.rhoi))
      T_pressure_melting :=
        Field.set s.T_pressure_melting i j (cc.as * s.Soc i j + cc.bs - cc.cs * pressure) }
  else s

/-- The function `Pico::calculate_basal_melt_missing_cells`. -/
def calculate_basal_melt_missing_cells (cc : Constants R) (s : Pico R) : Pico R :=
  s.grid.foldl (calculate_basal_melt_missing_cells_cell cc) s

/-! ### `update_impl` (Pico.cc lines 337-380) -/

/-- The second argument of `identifyMASK`. -/
inductive MaskName where
  | ocean_continental_shelf
  | icerises
  | ocean
  | lakes
  deriving DecidableEq, Repr

/-- The functions called by `update_impl` whose bodies are not in Pico.cc
(they belong to the parent class and to PicoGeometry.cc, neither among the
sources), as transformations of the state, and the square root of the C
library.  `average` stands for the two calls of lines 343-344. -/
structure External (R : Type) where
  sqrt : R → R
  update_internal : Pico R → R → R → Pico R
  average : Pico R → Pico R
  test : Pico R → Pico R
  identifyMASK : MaskName → Pico R → Pico R
  identify_shelf_mask : Pico R → Pico R
  round_basins : Pico R → Pico R
  compute_distances : Pico R → Pico R
  identify_ocean_box_mask : Constants R → Pico R → Pico R

/-- The function `Pico::update_impl`; `config` is the configuration `m_config`,
which the object only reads. -/
def update_impl (config : Config R) (ext : External R) (s : Pico R)
    (my_t my_dt : R) : Pico R :=
  let s := ext.update_internal s my_t my_dt
  let s := ext.average s
  let cc := Constants.Constants config
  let s := ext.test s
  let s := ext.identifyMASK MaskName.ocean_continental_shelf s
  let s := if s.exicerises_set then ext.identifyMASK MaskName.icerises s else s
  let s := ext.identifyMASK MaskName.ocean s
  let s := ext.identifyMASK MaskName.lakes s
  let s := ext.identify_shelf_mask s
  let s := ext.round_basins s
  let s := ext.compute_distances s
  let s := ext.identify_ocean_box_mask cc s
  let s := compute_ocean_input_per_basin cc s
  let s := set_ocean_input_fields cc s
  let s := (calculate_basal_melt_box1 ext.sqrt cc s).1
  let s := calculate_basal_melt_other_boxes cc s
  let s := calculate_basal_melt_missing_cells cc s
  let s := { s with m_shelf_base_temperature := s.T_pressure_melting }
  let s := { s with m_shelf_base_mass_flux := s.basalmeltrate_shelf }
  let s := { s with m_shelf_base_mass_flux := fun i j => s.m_shelf_base_mass_flux i j * cc.rhoi }
  let s := { s with m_sea_level_elevation := fun _ _ => 0.0 }
  { s with m_melange_back_pressure_fraction := fun _ _ => 0.0 }

end Pico
end ocean
end pism

namespace pism
namespace stressbalance
namespace SSAFEM

/-! ### Sample data for the SSA solver -/

/-- A solver with unit Dirichlet scale and the usual regularization. -/
def sample_ssa (R : Type) [LinearOrderedField R] : SSAFEM R :=
  { m_coefficients := []
    m_dirichletScale := 1
    m_ocean_rho := 1028
    m_beta_ice_free_bedrock := 1.8e9
    m_epsilon_ssa := 1e-13 }

/-- Glen exponent 3, the sum of the squares of the components as second
invariant, mask value 0 for ice-free bedrock and a purely plastic sliding law
(the coefficient is the yield stress). -/
noncomputable def sample_law : Constitutive :=
  { n := 3
    secondInvariant := fun Du => (Du.map (fun x => x * x)).sum
    ice_free_bedrock := fun mask => decide (mask = 0)
    sliding_law := fun tauc _ => tauc }

/-- Coefficients of grounded ice (mask value 2) of thickness `H`. -/
def sample_coefficients (R : Type) [LinearOrderedField R] (H : R) : Coefficients R :=
  { H := H
    tauc := 1e5
    b := 0
    B := 1e8
    driving_stress := { u := 0, v := 0 }
    mask := 2 }

/-- One element whose corner `k` is node `k` and whose local degree of freedom
`k` is the global degree of freedom `k`. -/
def sample_element : Element :=
  { node := fun k => k.val
    dof := fun k => k.val }

/-- Dirichlet data: the degrees of freedom 0 and 1 are prescribed, with
value 3. -/
def sample_dirichlet (R : Type) [LinearOrderedField R] : Dirichlet R :=
  { is_dirichlet := fun d => decide (d < 2)
    prescribed := fun _ => 3 }

/-- Input fields that are constant in space. -/
def sample_fields (R : Type) [LinearOrderedField R] : InputFields R :=
  { thickness := fun _ => 1000
    tauc := fun _ => 1e5
    bed_elevation := fun _ => -500
    hardness := fun _ => 1e8
    driving_stress := fun _ => { u := 0, v := 0 }
    mask := fun _ => 2 }

/-- A quadrature with one point, at the centre of the element. -/
def sample_quadrature (R : Type) [LinearOrderedField R] : Quadrature R :=
  { Nq := 1
    psi := fun _ _ => 1 / 4
    dominant := fun _ => 0 }

/-- Newton's method for `u * u = 2` as nonlinear-solve service, with an
iteration cap of 1: an iterate has converged when the residual `|u * u - 2|` is
below `1 / 1000`, and a step has diverged when the residual grew. -/
def sample_newton : NewtonKrylov ℚ :=
  { max_it := 1
    converged := fun u => decide (|u * u - 2| < 1 / 1000)
    diverged := fun u u1 => decide (|u * u - 2| < |u1 * u1 - 2|)
    step := fun u => StepOutcome.next ((u + 2 / u) / 2) }

end SSAFEM
end stressbalance
end pism

namespace pism
namespace ocean
namespace Pico

variable {R : Type} [LinearOrderedField R]

/-! ### Auxiliary notions and sample data for the PICO model -/

/-- The members that `calculate_basal_melt_box1` reads and never writes have
the same values in `t` as in `s`. -/
def sameBox1Inputs (s t : Pico R) : Prop :=
  t.shelf_mask = s.shelf_mask ∧ t.ocean_box_mask = s.ocean_box_mask ∧
  t.ice_thickness = s.ice_thickness ∧ t.Soc_box0 = s.Soc_box0 ∧
  t.Toc_box0 = s.Toc_box0 ∧ t.counter_boxes = s.counter_boxes ∧
  t.dx = s.dx ∧ t.dy = s.dy ∧ t.gamma_T = s.gamma_T ∧
  t.overturning_coeff = s.overturning_coeff

/-- Whether the loop of `calculate_basal_melt_box1` takes the branch of line 656
at the point `p`: a box-1 cell of an ice shelf whose discriminant is negative. -/
def box1_negative_at (sqrt : R → R) (cc : Constants R) (s : Pico R)
    (p : Int × Int) : Bool :=
  decide (s.ocean_box_mask p.1 p.2 = 1 ∧ 0 < s.shelf_mask p.1 p.2) &&
    (box1_cell sqrt cc s p.1 p.2).negative

/-- A configuration with the usual values of the physical constants. -/
def sample_config (R : Type) [LinearOrderedField R] : Config R :=
  { number_of_basins := 2
    number_of_boxes := 1
    continental_shelf_depth := -800
    melting_point_temperature := 273.15
    standard_gravity := 9.81
    ice_density := 910
    sea_water_density := 1028
    latent_heat_of_fusion := 3.34e5
    heat_exchange_coefficent := 2e-5
    overturning_coefficent := 1e6
    pik_melt_factor := 5e-3 }

/-- A grid of one cell, `(0, 0)`, which is a floating cell of shelf 1 in box 1
and basin 1, under ice 1000 m thick, with an ocean input of salinity 34.7 psu
and a temperature `Toc_box0` of 270 K, below the pressure melting point. -/
def sample_pico (R : Type) [LinearOrderedField R] : Pico R :=
  { grid := [(0, 0)]
    dx := 1000
    dy := 1000
    m_t := 0
    m_dt := 0
    exicerises_set := false
    maskfloating := 3
    maskocean := 4
    maskgrounded := 2
    imask_inner := 2
    numberOfBasins := 2
    numberOfBoxes := 1
    numberOfShelves := 2
    gamma_T := 2e-5
    overturning_coeff := 1e6
    continental_shelf_depth := -800
    ice_thickness := fun _ _ => 1000
    mask := fun _ _ => 3
    m_theta_ocean := fun _ _ => 270
    m_salinity_ocean := fun _ _ => 34.7
    cbasins := fun _ _ => 1
    shelf_mask := fun _ _ => 1
    ocean_box_mask := fun _ _ => 1
    icerise_mask := fun _ _ => 0
    ocean_contshelf_mask := fun _ _ => 0
    ocean_mask := fun _ _ => 0
    lake_mask := fun _ _ => 0
    DistGL := fun _ _ => 1
    DistIF := fun _ _ => 1
    Soc := fun _ _ => 0
    Soc_box0 := fun _ _ => 34.7
    Toc := fun _ _ => 0
    Toc_box0 := fun _ _ => 270
    T_star := fun _ _ => 0
    overturning := fun _ _ => 0
    basalmeltrate_shelf := fun _ _ => 0
    T_pressure_melting := fun _ _ => 0
    Toc_box0_vec := fun _ => 270
    Soc_box0_vec := fun _ => 34.7
    counter_boxes := fun _ _ => 1
    mean_salinity_boundary_vector := fun _ => 0
    mean_temperature_boundary_vector := fun _ => 0
    mean_overturning_box1_vector := fun _ => 0
    m_shelf_base_temperature := fun _ _ => 0
    m_shelf_base_mass_flux := fun _ _ => 0
    m_sea_level_elevation := fun _ _ => 0
    m_melange_back_pressure_fraction := fun _ _ => 0 }

/-! ### Auxiliary notions for `compute_ocean_input_per_basin` -/

/-- The grid points that the loop of lines 417-427 adds to the basin `id`: the
points of the continental-shelf mask (`ocean_contshelf_mask == imask_inner`)
whose basin number is `id`, in the order of the grid and with their
multiplicity. -/
def basin_cells (s : Pico R) (id : Int) : List (Int × Int) :=
  s.grid.filter (fun p =>
    decide (s.ocean_contshelf_mask p.1 p.2 = s.imask_inner ∧ s.cbasins p.1 p.2 = id))

/-- The local vectors `lm_count`, `lm_Sval` and `lm_Tval` after the loop over
the grid points (lines 401-427): the value of `sums` in
`compute_ocean_input_per_basin`. -/
def compute_ocean_input_per_basin_sums (s : Pico R) : BasinSums R :=
  s.grid.foldl (compute_ocean_input_per_basin_cell s)
    { lm_count := fun _ => 0, lm_Sval := fun _ => 0, lm_Tval := fun _ => 0 }

/-- Whether the pass of the loop over the basins for `shelf_id` takes the else
branch of line 451, which divides by `m_count[shelf_id]` (lines 452-453). -/
def compute_ocean_input_per_basin_divides (l : BasinSums R) (shelf_id : Int) : Bool :=
  !decide (0 < shelf_id ∧ l.lm_count shelf_id = 0)

/-! ### Auxiliary notions for `set_ocean_input_fields` -/

/-- The counters `counter_shelf_cells_in_basin` and `counter_shelf_cells` after
the counting loop (lines 500-520): the value of `counter` in
`set_ocean_input_fields`. -/
def set_ocean_input_fields_counter (s : Pico R) : ShelfCounters R :=
  s.grid.foldl (set_ocean_input_fields_count s)
    { lcounter_shelf_cells_in_basin := fun _ _ => 0, lcounter_shelf_cells := fun _ => 0 }

/-- The value that the loop over the basins of lines 540-543 accumulates, from
zero, at a cell of the shelf `shelf_id`: the entries of `vec` for the basins
`1, ..., numberOfBasins - 1`, weighted by the share of the shelf's cells that
lie in each basin. -/
def weighted_input (vec : Int → R) (counter : ShelfCounters R) (numberOfBasins : Int)
    (shelf_id : Int) : R :=
  (intRange 1 numberOfBasins).foldl
    (fun acc basin_id => acc + vec basin_id *
      counter.lcounter_shelf_cells_in_basin shelf_id basin_id /
      counter.lcounter_shelf_cells shelf_id) 0

/-- The loop over the basins of lines 540-543 at the cell `(i, j)` of the shelf
`shelf_id`, as it stands in `set_ocean_input_fields_cell`, run over a list of
basins from the state `t`. -/
def set_ocean_input_fields_basins (counter : ShelfCounters R) (i j shelf_id : Int)
    (basins : List Int) (t : Pico R) : Pico R :=
  basins.foldl
    (fun (s : Pico R) basin_id => { s with
      Toc_box0 := Field.set s.Toc_box0 i j
        (s.Toc_box0 i j + s.Toc_box0_vec basin_id *
          counter.lcounter_shelf_cells_in_basin shelf_id basin_id /
          counter.lcounter_shelf_cells shelf_id)
      Soc_box0 := Field.set s.Soc_box0 i j
        (s.Soc_box0 i j + s.Soc_box0_vec basin_id *
          counter.lcounter_shelf_cells_in_basin shelf_id basin_id /
          counter.lcounter_shelf_cells shelf_id) }) t

/-- The members that the loop of lines 527-559 reads and never writes have the
same values in `t` as in `s`. -/
def sameBox0Inputs (s t : Pico R) : Prop :=
  t.Toc_box0_vec = s.Toc_box0_vec ∧ t.Soc_box0_vec = s.Soc_box0_vec ∧
  t.ice_thickness = s.ice_thickness ∧ t.mask = s.mask ∧ t.shelf_mask = s.shelf_mask ∧
  t.maskfloating = s.maskfloating ∧ t.numberOfBasins = s.numberOfBasins

/-- The value of `Soc_box0` that one pass of the loop of lines 527-559 leaves at
its cell `(i, j)`. -/
def box0_cell_Soc (counter : ShelfCounters R) (s : Pico R) (i j : Int) : R :=
  if s.mask i j = s.maskfloating ∧ 0 < s.shelf_mask i j then
    weighted_input s.Soc_box0_vec counter s.numberOfBasins (s.shelf_mask i j)
  else 0

/-- The value of `Toc_box0` that one pass of the loop of lines 527-559 leaves at
its cell `(i, j)`. -/
def box0_cell_Toc (cc : Constants R) (counter : ShelfCounters R) (s : Pico R)
    (i j : Int) : R :=
  if s.mask i j = s.maskfloating ∧ 0 < s.shelf_mask i j then
    if weighted_input s.Toc_box0_vec counter s.numberOfBasins (s.shelf_mask i j) <
        cc.a * weighted_input s.Soc_box0_vec counter s.numberOfBasins (s.shelf_mask i j) +
          cc.b - cc.c * (cc.rhoi * cc.earth_grav * s.ice_thickness i j * 1e-4) then
      cc.a * weighted_input s.Soc_box0_vec counter s.numberOfBasins (s.shelf_mask i j) +
        cc.b - cc.c * (cc.rhoi * cc.earth_grav * s.ice_thickness i j * 1e-4) + 0.001
    else weighted_input s.Toc_box0_vec counter s.numberOfBasins (s.shelf_mask i j)
  else 0

/-- The state `sample_pico` with two grid cells, `(0, 0)` and `(0, 1)`, both on
the continental shelf (`ocean_contshelf_mask = imask_inner = 2`) in basin 1,
with ocean temperatures of 270 K and 272 K. -/
def sample_pico_shelf (R : Type) [LinearOrderedField R] : Pico R :=
  { sample_pico R with
    grid := [(0, 0), (0, 1)]
    ocean_contshelf_mask := fun _ _ => 2
    m_theta_ocean := fun _ j => if j = 0 then 270 else 272 }

/-- The state `sample_pico` with a cell `(0, 0)` that belongs to no shelf
(`shelf_mask = 0`) and holds a melt rate of 5 from an earlier step. -/
def sample_pico_no_shelf (R : Type) [LinearOrderedField R] : Pico R :=
  { sample_pico R with
    shelf_mask := fun _ _ => 0
    basalmeltrate_shelf := fun _ _ => 5 }

/-! ### `initBasinsOptions` and `init_impl` (Pico.cc lines 231-266 and 306-335) -/

/-- The function `Pico::initBasinsOptions` (lines 306-335).  The calls of
`resize` change the sizes of the vectors, which the embedding does not record. -/
def initBasinsOptions (cc : Constants R) (s : Pico R) : Pico R :=
  { s with
    numberOfBasins := cc.default_numberOfBasins
    numberOfBoxes := cc.default_numberOfBoxes
    gamma_T := cc.default_gamma_T
    overturning_coeff := cc.default_overturning_coeff
    continental_shelf_depth := cc.continental_shelf_depth }

/-- What `init_impl` obtains from outside Pico.cc: the constant `GSL_NAN`, the
effect of the two calls of `init` of lines 237-238 on the state, the field
`basins` of the input file (`none` when the file does not hold it, in which case
`regrid` with the flag `CRITICAL` stops with an error; the values are taken as
integers), the numbers of records of the two forcing fields and the current
model time. -/
structure InitInput (R : Type) where
  GSL_NAN : R
  init_forcing : Pico R → Pico R
  basins : Option (Field Int)
  theta_n_records : Nat
  salinity_n_records : Nat
  current_time : R

/-- The errors with which `init_impl` can stop. -/
inductive InitError where
  | basins_not_found
  deriving DecidableEq, Repr

/-- The function `Pico::init_impl` (lines 231-266).  The check of the range of
the basin numbers (lines 249-258) is commented out in the source and therefore
is not part of the function.  The call of `update` of line 263 runs
`update_impl`. -/
def init_impl (config : Config R) (ext : External R) (input : InitInput R)
    (s : Pico R) : Except InitError (Pico R) :=
  let s := { s with m_t := input.GSL_NAN, m_dt := input.GSL_NAN }
  let s := input.init_forcing s
  match input.basins with
  | none => Except.error InitError.basins_not_found
  | some basins =>
    let s := { s with cbasins := basins }
    let cc := Constants.Constants config
    let s := initBasinsOptions cc s
    let s := ext.round_basins s
    if input.theta_n_records = 1 ∧ input.salinity_n_records = 1 then
      Except.ok (update_impl config ext s input.current_time 0)
    else Except.ok s

/-- The values of `shelf_id` with which the loop of lines 417-427 of
`compute_ocean_input_per_basin` indexes the vectors `lm_count`, `lm_Sval` and
`lm_Tval`, which have `numberOfBasins` entries. -/
def compute_ocean_input_per_basin_indices (s : Pico R) : List Int :=
  (s.grid.filter (fun p => decide (s.ocean_contshelf_mask p.1 p.2 = s.imask_inner))).map
    (fun p => s.cbasins p.1 p.2)

/-- The values of `basin_id` with which the loop of lines 507-513 of
`set_ocean_input_fields` indexes the rows of `lcounter_shelf_cells_in_basin`,
which have `numberOfBasins` entries. -/
def set_ocean_input_fields_indices (s : Pico R) : List Int :=
  s.grid.map (fun p => s.cbasins p.1 p.2)

/-- The functions outside Pico.cc taken as doing nothing to the state, with the
real square root. -/
noncomputable def sample_external : External ℝ :=
  { sqrt := Real.sqrt
    update_internal := fun s _ _ => s
    average := fun s => s
    test := fun s => s
    identifyMASK := fun _ s => s
    identify_shelf_mask := fun s => s
    round_basins := fun s => s
    compute_distances := fun s => s
    identify_ocean_box_mask := fun _ s => s }

/-- An input file whose field `basins` holds the number 25 everywhere, with
time-dependent forcing (two records each). -/
def sample_init_input : InitInput ℝ :=
  { GSL_NAN := 0
    init_forcing := fun s => s
    basins := some (fun _ _ => 25)
    theta_n_records := 2
    salinity_n_records := 2
    current_time := 0 }

end Pico
end ocean

/-! ## The PIK surface model (ConstantPIK.cc) -/

namespace surface

/-- The two fields of `Geometry` that the surface model reads. -/
structure Geometry (R : Type) where
  ice_surface_elevation : Field R
  latitude : Field R

/-- The state of a `PIK` object: the points of its grid, the time and time step
of the last update, and its two fields (ConstantPIK.cc lines 36-51). -/
structure PIK (R : Type) where
  grid : List (Int × Int)
  m_t : R
  m_dt : R
  m_mass_flux : Field R
  m_temperature : Field R

namespace PIK

variable {R : Type} [LinearOrderedField R]

/-- The member `type` of `InputOptions`. -/
inductive InitializationType where
  | INIT_RESTART
  | INIT_BOOTSTRAP
  | INIT_OTHER
  deriving DecidableEq, Repr

/-- The input options returned by `process_input_options` (not among the
sources) together with what the input file holds: `regridded` is the field
`climatic_mass_balance` as `regrid` would set it and `read record` the field as
`read` would set it, each `none` when the variable is not found. -/
structure InputOptions (R : Type) where
  type : InitializationType
  record : Nat
  regridded : Option (Field R)
  read : Nat → Option (Field R)

/-- The errors with which `init_impl` can stop. -/
inductive InitError where
  | climatic_mass_balance_not_found
  deriving DecidableEq, Repr

/-- The function `PIK::init_impl` (lines 53-77): the surface mass balance is
read from the input file, by `regrid` when bootstrapping and by `read`
otherwise; both fail when the variable is not found. -/
def init_impl (opts : InputOptions R) (s : PIK R) : Except InitError (PIK R) :=
  if opts.type = InitializationType.INIT_BOOTSTRAP then
    match opts.regridded with
    | none => Except.error InitError.climatic_mass_balance_not_found
    | some field => Except.ok { s with m_mass_flux := field }
  else
    match opts.read opts.record with
    | none => Except.error InitError.climatic_mass_balance_not_found
    | some field => Except.ok { s with m_mass_flux := field }

/-- The condition of line 85 under which `update_impl` returns at once. -/
def update_skipped (s : PIK R) (t dt : R) : Bool :=
  decide (|t - s.m_t| < 1e-12 ∧ |dt - s.m_dt| < 1e-12)

/-- The function `PIK::update_impl` (lines 84-102). -/
def update_impl (geometry : Geometry R) (t dt : R) (s : PIK R) : PIK R :=
  if update_skipped s t dt then s
  else
    let s := { s with m_t := t, m_dt := dt }
    let usurf := geometry.ice_surface_elevation
    let lat := geometry.latitude
    s.grid.foldl
      (fun (s : PIK R) p => { s with
        m_temperature := Field.set s.m_temperature p.1 p.2
          (273.15 + 30 - 0.0075 * usurf p.1 p.2 - 0.68775 * lat p.1 p.2 * (-1.0)) }) s

/-- The function `PIK::mass_flux_impl` (lines 104-106). -/
def mass_flux_impl (s : PIK R) : Field R := s.m_mass_flux

/-- The function `PIK::temperature_impl` (lines 108-110). -/
def temperature_impl (s : PIK R) : Field R := s.m_temperature

/-- A surface model on a grid of two cells before its first update. -/
def sample_pik (R : Type) [LinearOrderedField R] : PIK R :=
  { grid := [(0, 0), (0, 1)]
    m_t := -1
    m_dt := -1
    m_mass_flux := fun _ _ => 0
    m_temperature := fun _ _ => 0 }

/-- A geometry with a surface elevation of 1000 m at `(0, 0)` and 2000 m
elsewhere, at the latitude of 75 degrees south. -/
def sample_geometry (R : Type) [LinearOrderedField R] : Geometry R :=
  { ice_surface_elevation := fun _ j => if j = 0 then 1000 else 2000
    latitude := fun _ _ => -75 }

/-- Input options for bootstrapping from a file whose surface mass balance is
`0.01` everywhere. -/
def sample_input_options (R : Type) [LinearOrderedField R] : InputOptions R :=
  { type := InitializationType.INIT_BOOTSTRAP
    record := 0
    regridded := some (fun _ _ => 0.01)
    read := fun _ => none }

end PIK
end surface
end pism

/-! ## The driver `pclimate` (pclimate.cc) -/

namespace pclimate

/-- A PETSc error code: `0` for success. -/
abbrev PetscErrorCode : Type := Int

/-- Whether each of the five fields that `writePCCStateAtTimes` looks up in
`variables` is available (lines 195-208). -/
structure Available where
  usurf : Bool
  artm : Bool
  acab : Bool
  shelfbasetemp : Bool
  shelfbasemassflux : Bool

/-- The error codes returned by the calls that `writePCCStateAtTimes` checks
with `CHKERRQ`, none of which is among the sources.  Consecutive calls whose
effect the embedding does not record are grouped, the code of a group being the
first nonzero code of its calls, or `0`:
`open_close` for lines 219-221, `mapping_write` and `global_attrs_write` for
lines 223-224, `print_attention` for line 231, `round_prepare k` for lines
252-273 of round `k`, `surface_update` and `ocean_update` for lines 276-277 (at
the time and the time step they are called with), `round_write k` for lines
279-304 of round `k`, and `print_newline` for line 306. -/
structure Calls (R : Type) where
  open_close : PetscErrorCode
  mapping_write : PetscErrorCode
  global_attrs_write : PetscErrorCode
  print_attention : PetscErrorCode
  round_prepare : Int → PetscErrorCode
  surface_update : R → R → PetscErrorCode
  ocean_update : R → R → PetscErrorCode
  round_write : Int → PetscErrorCode
  print_newline : PetscErrorCode

/-- What `writePCCStateAtTimes` does to the models and to the output file, in
order: a call of `surface->update` or of `ocean->update` with its two
arguments, and the completion of the writes of round `k`. -/
inductive Event (R : Type) where
  | surface_update (time dt_update : R)
  | ocean_update (time dt_update : R)
  | state_written (k : Int)

variable {R : Type} [LinearOrderedField R]

/-- The number `NN` of times at which the state is written (lines 226-227):
`(int) ceil((time_end - time_start) / dt)`.  The overflow of the conversion to
`int` is not modelled. -/
def NN [FloorRing R] (time_start time_end dt : R) : Int :=
  ⌈(time_end - time_start) / dt⌉

/-- The macro `PetscMin` of PETSc (not among the sources). -/
def PetscMin (a b : R) : R := if a < b then a else b

/-- The loop of lines 249-305 over the rounds `ks`, with the events so far; it
stops at the first call that returns a nonzero code. -/
def write_rounds (calls : Calls R) (time_start time_end dt : R) :
    List Int → List (Event R) → PetscErrorCode × List (Event R)
  | [], events => (0, events)
  | k :: ks, events =>
    let time := time_start + (k : R) * dt
    if calls.round_prepare k ≠ 0 then (calls.round_prepare k, events)
    else
      let dt_update := PetscMin dt (time_end - time)
      let events := events ++ [Event.surface_update time dt_update]
      if calls.surface_update time dt_update ≠ 0 then
        (calls.surface_update time dt_update, events)
      else
        let events := events ++ [Event.ocean_update time dt_update]
        if calls.ocean_update time dt_update ≠ 0 then
          (calls.ocean_update time dt_update, events)
        else if calls.round_write k ≠ 0 then (calls.round_write k, events)
        else
          write_rounds calls time_start time_end dt ks
            (events ++ [Event.state_written k])

/-- The function `writePCCStateAtTimes` (pclimate.cc lines 182-309): the error
code it returns and the events it causes. -/
def writePCCStateAtTimes [FloorRing R] (available : Available) (calls : Calls R)
    (time_start time_end dt : R) : PetscErrorCode × List (Event R) :=
  if available.usurf = false then (1, [])
  else if available.artm = false then (1, [])
  else if available.acab = false then (1, [])
  else if available.shelfbasetemp = false then (1, [])
  else if available.shelfbasemassflux = false then (1, [])
  else if calls.open_close ≠ 0 then (calls.open_close, [])
  else if calls.mapping_write ≠ 0 then (calls.mapping_write, [])
  else if calls.global_attrs_write ≠ 0 then (calls.global_attrs_write, [])
  else if 1000 < NN time_start time_end dt then (2, [])
  else if 50 < NN time_start time_end dt ∧ calls.print_attention ≠ 0 then
    (calls.print_attention, [])
  else
    let result := write_rounds calls time_start time_end dt
      (pism.ocean.intRange 0 (NN time_start time_end dt)) []
    if result.1 ≠ 0 then result
    else if calls.print_newline ≠ 0 then (calls.print_newline, result.2)
    else (0, result.2)

/-- Every call checked with `CHKERRQ` returns `0`. -/
def Calls.succeed (calls : Calls R) : Prop :=
  calls.open_close = 0 ∧ calls.mapping_write = 0 ∧ calls.global_attrs_write = 0 ∧
  calls.print_attention = 0 ∧ (∀ k, calls.round_prepare k = 0) ∧
  (∀ time dt_update, calls.surface_update time dt_update = 0) ∧
  (∀ time dt_update, calls.ocean_update time dt_update = 0) ∧
  (∀ k, calls.round_write k = 0) ∧ calls.print_newline = 0

/-- The events of one complete round `k`: the update of the surface model and
of the ocean model at the time `time_start + k * dt`, for the time step
`PetscMin(dt, time_end - time)`, and the completion of the writes. -/
def round_events (time_start time_end dt : R) (k : Int) : List (Event R) :=
  [Event.surface_update (time_start + (k : R) * dt)
      (PetscMin dt (time_end - (time_start + (k : R) * dt))),
    Event.ocean_update (time_start + (k : R) * dt)
      (PetscMin dt (time_end - (time_start + (k : R) * dt))),
    Event.state_written k]

/-- All five fields are available. -/
def sample_available : Available :=
  { usurf := true, artm := true, acab := true, shelfbasetemp := true,
    shelfbasemassflux := true }

/-- Calls that all return `0`. -/
def sample_calls (R : Type) : Calls R :=
  { open_close := 0
    mapping_write := 0
    global_attrs_write := 0
    print_attention := 0
    round_prepare := fun _ => 0
    surface_update := fun _ _ => 0
    ocean_update := fun _ _ => 0
    round_write := fun _ => 0
    print_newline := 0 }

end pclimate

/-! ## Properties of the SSA finite-element solver -/

namespace pism
namespace stressbalance
namespace SSAFEM

/-- Claim C1: for every Coefficients and every strain rate `Du`, the `nuH` returned by
`PointwiseNuHAndBeta` is `0.5 * B * H * (eps0 + secondInvariant(Du))^((1-n)/(2n))`,
with `eps0` the regularization constant `m_epsilon_ssa` and `n` the flow-law
exponent. -/
theorem PointwiseNuHAndBeta_nuH_formula (ssa : SSAFEM ℝ) (law : Constitutive)
    (coefficients : Coefficients ℝ) (u : Vector2 ℝ) (Du : List ℝ) :
    (PointwiseNuHAndBeta ssa law coefficients u Du).nuH =
      0.5 * coefficients.B * coefficients.H *
        (ssa.m_epsilon_ssa + law.secondInvariant Du) ^ ((1 - law.n) / (2 * law.n)) :=
  rfl

/-- Claim C4: for positive thickness `H` and hardness `B`, flow-law exponent `n > 1`
and regularization `m_epsilon_ssa > 0`, `nuH` at zero strain rate (second
invariant `0`) is strictly positive, and `nuH` strictly decreases as the second
invariant of the strain rate increases: for strain rates `Du1`, `Du2` with
`0 ≤ secondInvariant Du1 < secondInvariant Du2`, `nuH(Du2) < nuH(Du1)`. -/
theorem PointwiseNuHAndBeta_nuH_strictly_decreasing (ssa : SSAFEM ℝ)
    (law : Constitutive) (coefficients : Coefficients ℝ) (u : Vector2 ℝ)
    (Du0 Du1 Du2 : List ℝ)
    (hH : 0 < coefficients.H) (hB : 0 < coefficients.B) (hn : 1 < law.n)
    (heps : 0 < ssa.m_epsilon_ssa) (h0 : law.secondInvariant Du0 = 0)
    (h1 : 0 ≤ law.secondInvariant Du1)
    (h12 : law.secondInvariant Du1 < law.secondInvariant Du2) :
    0 < (PointwiseNuHAndBeta ssa law coefficients u Du0).nuH ∧
      (PointwiseNuHAndBeta ssa law coefficients u Du2).nuH <
        (PointwiseNuHAndBeta ssa law coefficients u Du1).nuH := by
  have hexp : (1 - law.n) / (2 * law.n) < 0 :=
    div_neg_of_neg_of_pos (by linarith) (by linarith)
  have hBH : 0 < 0.5 * coefficients.B * coefficients.H := by positivity
  constructor
  · have hbase : 0 < ssa.m_epsilon_ssa + law.secondInvariant Du0 := by linarith
    have hpow := Real.rpow_pos_of_pos hbase ((1 - law.n) / (2 * law.n))
    exact mul_pos hBH hpow
  · have hbase : 0 < ssa.m_epsilon_ssa + law.secondInvariant Du1 := by linarith
    have hlt : ssa.m_epsilon_ssa + law.secondInvariant Du1 <
        ssa.m_epsilon_ssa + law.secondInvariant Du2 := by linarith
    have hpow := Real.rpow_lt_rpow_of_neg hbase hlt hexp
    exact mul_lt_mul_of_pos_left hpow hBH

/-- Witness of `PointwiseNuHAndBeta_nuH_strictly_decreasing`: Glen exponent
`n = 3`, thickness 1000, unit hardness, and strain rates of second invariant
`0`, `1` and `4`. -/
theorem PointwiseNuHAndBeta_nuH_strictly_decreasing_witness :
    0 < (PointwiseNuHAndBeta (sample_ssa ℝ) sample_law
          (sample_coefficients ℝ 1000) { u := 1, v := 0 } [0, 0, 0, 0]).nuH ∧
      (PointwiseNuHAndBeta (sample_ssa ℝ) sample_law
          (sample_coefficients ℝ 1000) { u := 1, v := 0 } [2, 0, 0, 0]).nuH <
        (PointwiseNuHAndBeta (sample_ssa ℝ) sample_law
          (sample_coefficients ℝ 1000) { u := 1, v := 0 } [1, 0, 0, 0]).nuH :=
  PointwiseNuHAndBeta_nuH_strictly_decreasing _ _ _ _ [0, 0, 0, 0] [1, 0, 0, 0]
    [2, 0, 0, 0] (by norm_num [sample_coefficients]) (by norm_num [sample_coefficients])
    (by norm_num [sample_law]) (by norm_num [sample_ssa]) (by norm_num [sample_law])
    (by norm_num [sample_law]) (by norm_num [sample_law])

/-- Claim C5: after `compute_local_function`, the residual entry of every Dirichlet
degree of freedom `d` is `dirichletScale * (u_current - u_prescribed)`, whatever
the elements and their contributions are; with a nonzero `dirichletScale` it is
zero exactly when the iterate carries the prescribed value at `d`. -/
theorem compute_local_function_dirichlet {R : Type} [LinearOrderedField R]
    (ssa : SSAFEM R) (bc : Dirichlet R) (elements : List Element)
    (local_residual : Element → (Nat → R) → Fin 8 → R) (velocity : Nat → R) (d : Nat)
    (hd : bc.is_dirichlet d = true) :
    compute_local_function ssa bc elements local_residual velocity d =
        ssa.m_dirichletScale * (velocity d - bc.prescribed d) ∧
      (ssa.m_dirichletScale ≠ 0 →
        (compute_local_function ssa bc elements local_residual velocity d = 0 ↔
          velocity d = bc.prescribed d)) := by
  have hval : compute_local_function ssa bc elements local_residual velocity d =
      ssa.m_dirichletScale * (velocity d - bc.prescribed d) := by
    simp [compute_local_function, hd]
  refine ⟨hval, fun hscale => ?_⟩
  rw [hval, mul_eq_zero, sub_eq_zero]
  constructor
  · rintro (h | h)
    · exact absurd h hscale
    · exact h
  · intro h
    exact Or.inr h

/-- Claim C6: after `compute_local_jacobian`, for every Dirichlet degree of freedom
`d` the diagonal entry `J[d][d]` is `dirichletScale` and, for every `k`
different from `d`, `J[d][k] = 0` and `J[k][d] = 0`. -/
theorem compute_local_jacobian_dirichlet {R : Type} [LinearOrderedField R]
    (ssa : SSAFEM R) (bc : Dirichlet R) (elements : List Element)
    (local_jacobian : Element → (Nat → R) → Fin 8 → Fin 8 → R) (velocity : Nat → R)
    (d : Nat) (hd : bc.is_dirichlet d = true) :
    compute_local_jacobian ssa bc elements local_jacobian velocity d d =
        ssa.m_dirichletScale ∧
      ∀ k, k ≠ d →
        compute_local_jacobian ssa bc elements local_jacobian velocity d k = 0 ∧
        compute_local_jacobian ssa bc elements local_jacobian velocity k d = 0 := by
  refine ⟨by simp [compute_local_jacobian, hd], fun k hk => ?_⟩
  have hk2 : ¬ d = k := fun h => hk h.symm
  constructor
  · simp [compute_local_jacobian, hd, hk2]
  · simp [compute_local_jacobian, hd, hk]

/-- The Newton iterations report `converged` only at an iterate that passes the
convergence test. -/
theorem newton_iterations_converged {V : Type} (snes : NewtonKrylov V) :
    ∀ (remaining : Nat) (u : V),
      (newton_iterations snes remaining u).1 = TerminationReason.converged →
      snes.converged (newton_iterations snes remaining u).2 = true := by
  intro remaining
  induction remaining with
  | zero =>
    intro u h
    simp [newton_iterations] at h
  | succ k ih =>
    intro u h
    unfold newton_iterations at h ⊢
    cases hs : snes.step u with
    | line_search_failure => simp [hs] at h
    | linear_solve_failure => simp [hs] at h
    | next u1 =>
      simp only [hs] at h ⊢
      by_cases hc : snes.converged u1 = true
      · simp [hc]
      · by_cases hdv : snes.diverged u u1 = true
        · simp [hc, hdv] at h
        · simp only [hc, hdv, if_false, Bool.false_eq_true] at h ⊢
          exact ih u1 h

/-- The coefficient array keeps its length through `cache_element`. -/
theorem cache_element_length {R : Type} [LinearOrderedField R] (fields : InputFields R)
    (quad : Quadrature R) (e : Element) (ei : Nat) (coeffs : List (Coefficients R)) :
    (cache_element fields quad e ei coeffs).length = coeffs.length := by
  unfold cache_element
  generalize List.range quad.Nq = qs
  induction qs generalizing coeffs with
  | nil => rfl
  | cons q qs ih => simp [List.foldl_cons, ih]

/-- The coefficient array keeps its length through `cache_elements`. -/
theorem cache_elements_length {R : Type} [LinearOrderedField R] (fields : InputFields R)
    (quad : Quadrature R) (elements : List Element) :
    ∀ (ei : Nat) (coeffs : List (Coefficients R)),
      (cache_elements fields quad elements ei coeffs).length = coeffs.length := by
  induction elements with
  | nil => intro ei coeffs; rfl
  | cons e rest ih =>
    intro ei coeffs
    simp [cache_elements, ih, cache_element_length]

/-- An entry that the loop over the quadrature points does not write keeps its
value. -/
theorem cache_element_untouched {R : Type} [LinearOrderedField R]
    (fields : InputFields R) (quad : Quadrature R) (e : Element) (ei i : Nat)
    (coeffs : List (Coefficients R))
    (hi : ∀ q, q < quad.Nq → i ≠ ei * quad.Nq + q) :
    (cache_element fields quad e ei coeffs)[i]? = coeffs[i]? := by
  unfold cache_element
  have hqs : ∀ q ∈ List.range quad.Nq, i ≠ ei * quad.Nq + q :=
    fun q hq => hi q (List.mem_range.mp hq)
  revert hqs
  generalize List.range quad.Nq = qs
  induction qs generalizing coeffs with
  | nil => intro _; rfl
  | cons q qs ih =>
    intro hqs
    rw [List.foldl_cons, ih _ (fun q1 hq1 => hqs q1 (List.mem_cons_of_mem _ hq1))]
    have hne : ei * quad.Nq + q ≠ i := fun h => hqs q (List.mem_cons_self _ _) h.symm
    simp [List.getElem?_set, hne]

/-- An entry that the loop over the elements does not write keeps its value. -/
theorem cache_elements_untouched {R : Type} [LinearOrderedField R]
    (fields : InputFields R) (quad : Quadrature R) (elements : List Element) (i : Nat) :
    ∀ (ei : Nat) (coeffs : List (Coefficients R)),
      (∀ k q, k < elements.length → q < quad.Nq → i ≠ (ei + k) * quad.Nq + q) →
      (cache_elements fields quad elements ei coeffs)[i]? = coeffs[i]? := by
  induction elements with
  | nil => intro ei coeffs _; rfl
  | cons e rest ih =>
    intro ei coeffs hi
    unfold cache_elements
    rw [ih (ei + 1) _ ?_, cache_element_untouched fields quad e ei i coeffs ?_]
    · intro q hq
      have := hi 0 q (by simp) hq
      simpa using this
    · intro k q hk hq
      have := hi (k + 1) q (by simpa using hk) hq
      have hidx : ei + 1 + k = ei + (k + 1) := by omega
      rw [hidx]
      exact this

/-- Two arrays of the same length that agree outside of the entries written by
a loop of assignments and outside of a set `I` of indices agree outside of `I`
after the loop. -/
theorem foldl_set_agree {C : Type} (f : Nat → Nat) (g : Nat → C) (I : Nat → Prop) :
    ∀ (qs : List Nat) (cs1 cs2 : List C), cs1.length = cs2.length →
      (∀ i : Nat, I i ∨ (∃ q, q ∈ qs ∧ i = f q) ∨ cs1[i]? = cs2[i]?) →
      ∀ i : Nat, I i ∨ (qs.foldl (fun cs q => cs.set (f q) (g q)) cs1)[i]? =
        (qs.foldl (fun cs q => cs.set (f q) (g q)) cs2)[i]? := by
  intro qs
  induction qs with
  | nil =>
    intro cs1 cs2 _ hqs i
    rcases hqs i with h | ⟨q, hq, _⟩ | h
    · exact Or.inl h
    · cases hq
    · exact Or.inr h
  | cons q qs ih =>
    intro cs1 cs2 hlen hqs
    rw [List.foldl_cons, List.foldl_cons]
    apply ih
    · simp [hlen]
    · intro i
      rcases hqs i with h | ⟨q1, hq1, rfl⟩ | h
      · exact Or.inl h
      · rcases List.mem_cons.mp hq1 with rfl | hq1
        · right; right
          simp [List.getElem?_set, hlen]
        · exact Or.inr (Or.inl ⟨q1, hq1, rfl⟩)
      · right; right
        simp [List.getElem?_set, hlen, h]

/-- Two coefficient arrays of the same length that agree outside of the entries
written by `cache_element` and outside of a set `I` of indices agree outside of
`I` after `cache_element`. -/
theorem cache_element_agree {R : Type} [LinearOrderedField R] (fields : InputFields R)
    (quad : Quadrature R) (e : Element) (ei : Nat) (I : Nat → Prop)
    (cs1 cs2 : List (Coefficients R)) (hlen : cs1.length = cs2.length)
    (h : ∀ i : Nat, I i ∨ (∃ q, q < quad.Nq ∧ i = ei * quad.Nq + q) ∨
      cs1[i]? = cs2[i]?) :
    ∀ i : Nat, I i ∨ (cache_element fields quad e ei cs1)[i]? =
      (cache_element fields quad e ei cs2)[i]? := by
  unfold cache_element
  apply foldl_set_agree (fun q => ei * quad.Nq + q) (coefficients_at fields quad e) I
    (List.range quad.Nq) cs1 cs2 hlen
  intro i
  rcases h i with h | ⟨q, hq, rfl⟩ | h
  · exact Or.inl h
  · exact Or.inr (Or.inl ⟨q, List.mem_range.mpr hq, rfl⟩)
  · exact Or.inr (Or.inr h)

/-- Two coefficient arrays of the same length that agree outside of the entries
written by `cache_elements` agree everywhere after `cache_elements`. -/
theorem cache_elements_agree {R : Type} [LinearOrderedField R] (fields : InputFields R)
    (quad : Quadrature R) (elements : List Element) :
    ∀ (ei : Nat) (cs1 cs2 : List (Coefficients R)), cs1.length = cs2.length →
      (∀ i : Nat,
        (∃ k q, k < elements.length ∧ q < quad.Nq ∧ i = (ei + k) * quad.Nq + q) ∨
          cs1[i]? = cs2[i]?) →
      ∀ i : Nat, (cache_elements fields quad elements ei cs1)[i]? =
        (cache_elements fields quad elements ei cs2)[i]? := by
  induction elements with
  | nil =>
    intro ei cs1 cs2 _ h i
    rcases h i with ⟨k, q, hk, _⟩ | h
    · simp at hk
    · exact h
  | cons e rest ih =>
    intro ei cs1 cs2 hlen h i
    unfold cache_elements
    apply ih (ei + 1)
    · simp [cache_element_length, hlen]
    · intro i1
      have hagree := cache_element_agree fields quad e ei
        (fun i => ∃ k q, k < rest.length ∧ q < quad.Nq ∧ i = (ei + 1 + k) * quad.Nq + q)
        cs1 cs2 hlen ?_ i1
      · exact hagree
      · intro i2
        rcases h i2 with ⟨k, q, hk, hq, rfl⟩ | h
        · cases k with
          | zero => exact Or.inr (Or.inl ⟨q, hq, by simp⟩)
          | succ k =>
            refine Or.inl ⟨k, q, by simpa using hk, hq, ?_⟩
            have hidx : ei + 1 + k = ei + (k + 1) := by omega
            rw [hidx]
        · exact Or.inr (Or.inr h)

/-- Claim C7: a nonlinear solve reports `converged` only at an iterate that passes
the convergence test, and a solve that hits the iteration cap reports it: with
an iteration cap of 1, when neither the initial iterate nor the iterate after
one Newton step passes the convergence test (and that step is not flagged as
diverged), `solve_with_reason` returns `max_iterations_exceeded`, together with
the iterate after that one step. -/
theorem solve_with_reason_iteration_cap {R V : Type} [LinearOrderedField R]
    (fields : InputFields R) (quad : Quadrature R) (elements : List Element)
    (snes : List (Coefficients R) → NewtonKrylov V) (ssa : SSAFEM R) (u0 u1 : V)
    (hcap : (snes (cache_inputs fields quad elements ssa).m_coefficients).max_it = 1)
    (h0 : (snes (cache_inputs fields quad elements ssa).m_coefficients).converged u0 = false)
    (hstep : (snes (cache_inputs fields quad elements ssa).m_coefficients).step u0 =
      StepOutcome.next u1)
    (h1 : (snes (cache_inputs fields quad elements ssa).m_coefficients).converged u1 = false)
    (hdiv : (snes (cache_inputs fields quad elements ssa).m_coefficients).diverged u0 u1 =
      false) :
    (solve_with_reason fields quad elements snes ssa u0).2 =
        (TerminationReason.max_iterations_exceeded, u1) ∧
      ∀ (snes1 : List (Coefficients R) → NewtonKrylov V) (v0 : V),
        (solve_with_reason fields quad elements snes1 ssa v0).2.1 =
            TerminationReason.converged →
          (snes1 (cache_inputs fields quad elements ssa).m_coefficients).converged
            (solve_with_reason fields quad elements snes1 ssa v0).2.2 = true := by
  constructor
  · simp [solve_with_reason, solve_nocache, h0, hcap, newton_iterations, hstep, h1, hdiv]
  · intro snes1 v0 h
    simp only [solve_with_reason, solve_nocache] at h ⊢
    by_cases hc : (snes1 (cache_inputs fields quad elements ssa).m_coefficients).converged
        v0 = true
    · simp [hc]
    · simp only [hc, if_false, Bool.false_eq_true] at h ⊢
      exact newton_iterations_converged _ _ _ h

/-- Claim C8: caching is idempotent and overwriting.  Calling `cache_inputs` a second
time with the same input fields leaves the solver unchanged, and when the
coefficient array has one entry per quadrature point of every element, the
cached Coefficients do not depend on the values cached before. -/
theorem cache_inputs_idempotent_overwriting {R : Type} [LinearOrderedField R]
    (fields : InputFields R) (quad : Quadrature R) (elements : List Element)
    (ssa1 ssa2 : SSAFEM R)
    (h1 : ssa1.m_coefficients.length = elements.length * quad.Nq)
    (h2 : ssa2.m_coefficients.length = elements.length * quad.Nq) :
    cache_inputs fields quad elements (cache_inputs fields quad elements ssa1) =
        cache_inputs fields quad elements ssa1 ∧
      (cache_inputs fields quad elements ssa1).m_coefficients =
        (cache_inputs fields quad elements ssa2).m_coefficients := by
  constructor
  · have hcs : cache_elements fields quad elements 0
          (cache_elements fields quad elements 0 ssa1.m_coefficients) =
        cache_elements fields quad elements 0 ssa1.m_coefficients := by
      apply List.ext_getElem?
      intro i
      rw [cache_elements_agree fields quad elements 0
        (cache_elements fields quad elements 0 ssa1.m_coefficients) ssa1.m_coefficients
        (cache_elements_length fields quad elements 0 _) ?_ i]
      intro i1
      by_cases hw : ∃ k q, k < elements.length ∧ q < quad.Nq ∧ i1 = (0 + k) * quad.Nq + q
      · exact Or.inl hw
      · right
        apply cache_elements_untouched
        intro k q hk hq heq
        exact hw ⟨k, q, hk, hq, heq⟩
    simp [cache_inputs, hcs]
  · show cache_elements fields quad elements 0 ssa1.m_coefficients =
      cache_elements fields quad elements 0 ssa2.m_coefficients
    apply List.ext_getElem?
    intro i
    apply cache_elements_agree fields quad elements 0 _ _ (by rw [h1, h2])
    intro i1
    by_cases hlt : i1 < elements.length * quad.Nq
    · left
      have hNq : 0 < quad.Nq := by
        rcases Nat.eq_zero_or_pos quad.Nq with h | h
        · rw [h] at hlt; simp at hlt
        · exact h
      refine ⟨i1 / quad.Nq, i1 % quad.Nq, ?_, Nat.mod_lt _ hNq, ?_⟩
      · exact Nat.div_lt_of_lt_mul (by rw [Nat.mul_comm]; exact hlt)
      · rw [Nat.zero_add, Nat.mul_comm]
        exact (Nat.div_add_mod i1 quad.Nq).symm
    · right
      rw [List.getElem?_eq_none (by omega), List.getElem?_eq_none (by omega)]

/-- Witness of `compute_local_function_dirichlet`: the prescribed degree of
freedom 0 of `sample_dirichlet`, with one element contributing 1 to each of its
entries and an iterate equal to 5 everywhere. -/
theorem compute_local_function_dirichlet_witness :
    compute_local_function (sample_ssa ℚ) (sample_dirichlet ℚ) [sample_element]
        (fun _ _ _ => 1) (fun _ => 5) 0 = 1 * (5 - 3) :=
  (compute_local_function_dirichlet (sample_ssa ℚ) (sample_dirichlet ℚ)
    [sample_element] (fun _ _ _ => 1) (fun _ => 5) 0 rfl).1

/-- Witness of `compute_local_jacobian_dirichlet`: the prescribed degree of
freedom 0 of `sample_dirichlet`. -/
theorem compute_local_jacobian_dirichlet_witness :
    compute_local_jacobian (sample_ssa ℚ) (sample_dirichlet ℚ) [sample_element]
        (fun _ _ _ _ => 1) (fun _ => 5) 0 0 = 1 :=
  (compute_local_jacobian_dirichlet (sample_ssa ℚ) (sample_dirichlet ℚ)
    [sample_element] (fun _ _ _ _ => 1) (fun _ => 5) 0 rfl).1

/-- Witness of `solve_with_reason_iteration_cap`: Newton's method for
`u * u = 2` started at 1 with an iteration cap of 1 stops at `3 / 2` with
`max_iterations_exceeded`. -/
theorem solve_with_reason_iteration_cap_witness :
    (solve_with_reason (sample_fields ℚ) (sample_quadrature ℚ) [sample_element]
        (fun _ => sample_newton) (sample_ssa ℚ) 1).2 =
      (TerminationReason.max_iterations_exceeded, 3 / 2) :=
  (solve_with_reason_iteration_cap (sample_fields ℚ) (sample_quadrature ℚ)
    [sample_element] (fun _ => sample_newton) (sample_ssa ℚ) 1 (3 / 2) rfl
    (by norm_num [sample_newton]) (by norm_num [sample_newton])
    (by norm_num [sample_newton, abs_lt])
    (by
      show decide (|(1 : ℚ) * 1 - 2| < |3 / 2 * (3 / 2) - 2|) = false
      rw [decide_eq_false_iff_not, not_lt]
      norm_num [abs_le, le_abs])).1

/-- Witness of `cache_inputs_idempotent_overwriting`: one element with one
quadrature point, and two solvers whose cached thickness differs. -/
theorem cache_inputs_idempotent_overwriting_witness :
    cache_inputs (sample_fields ℚ) (sample_quadrature ℚ) [sample_element]
          (cache_inputs (sample_fields ℚ) (sample_quadrature ℚ) [sample_element]
            { sample_ssa ℚ with m_coefficients := [sample_coefficients ℚ 1] }) =
        cache_inputs (sample_fields ℚ) (sample_quadrature ℚ) [sample_element]
          { sample_ssa ℚ with m_coefficients := [sample_coefficients ℚ 1] } ∧
      (cache_inputs (sample_fields ℚ) (sample_quadrature ℚ) [sample_element]
          { sample_ssa ℚ with m_coefficients := [sample_coefficients ℚ 1] }).m_coefficients =
        (cache_inputs (sample_fields ℚ) (sample_quadrature ℚ) [sample_element]
          { sample_ssa ℚ with m_coefficients := [sample_coefficients ℚ 2] }).m_coefficients :=
  cache_inputs_idempotent_overwriting (sample_fields ℚ) (sample_quadrature ℚ)
    [sample_element] { sample_ssa ℚ with m_coefficients := [sample_coefficients ℚ 1] }
    { sample_ssa ℚ with m_coefficients := [sample_coefficients ℚ 2] } rfl rfl

end SSAFEM
end stressbalance
end pism

/-! ## Properties of the PICO ocean model -/

namespace pism
namespace ocean

/-- The values visited by `for (int k = lo; k < hi; k++)` are the integers from
`lo` up to `hi - 1`. -/
theorem mem_intRange (lo hi k : Int) : k ∈ intRange lo hi ↔ lo ≤ k ∧ k < hi := by
  simp only [intRange, List.mem_map, List.mem_range, List.bind_eq_flatMap,
    List.mem_flatMap, List.pure_def, List.mem_singleton]
  constructor
  · rintro ⟨n, ⟨m, hm, rfl⟩, rfl⟩
    constructor <;> omega
  · rintro ⟨h1, h2⟩
    exact ⟨((k - lo).toNat : Int), ⟨(k - lo).toNat, by omega, rfl⟩, by omega⟩

namespace Pico

variable {R : Type} [LinearOrderedField R]

/-- The computation at a cell only depends on the members listed in
`sameBox1Inputs`. -/
theorem box1_cell_congr (sqrt : R → R) (cc : Constants R) (s t : Pico R)
    (h : sameBox1Inputs s t) (i j : Int) :
    box1_cell sqrt cc t i j = box1_cell sqrt cc s i j := by
  obtain ⟨h1, _, h3, h4, h5, h6, h7, h8, h9, h10⟩ := h
  simp only [box1_cell, h1, h3, h4, h5, h6, h7, h8, h9, h10]

/-- One pass of the loop body of `calculate_basal_melt_box1` keeps the members
listed in `sameBox1Inputs`. -/
theorem calculate_basal_melt_box1_cell_inputs (sqrt : R → R) (cc : Constants R)
    (s : Pico R) (st : Pico R × Box1Sums R) (p : Int × Int)
    (h : sameBox1Inputs s st.1) :
    sameBox1Inputs s (calculate_basal_melt_box1_cell sqrt cc st p).1 := by
  obtain ⟨h1, h2, h3, h4, h5, h6, h7, h8, h9, h10⟩ := h
  unfold calculate_basal_melt_box1_cell
  dsimp only
  split
  · exact ⟨h1, h2, h3, h4, h5, h6, h7, h8, h9, h10⟩
  · exact ⟨h1, h2, h3, h4, h5, h6, h7, h8, h9, h10⟩

/-- The value of `Toc` after one pass of the loop body. -/
theorem calculate_basal_melt_box1_cell_Toc (sqrt : R → R) (cc : Constants R)
    (s : Pico R) (st : Pico R × Box1Sums R) (p : Int × Int)
    (h : sameBox1Inputs s st.1) (i j : Int) :
    (calculate_basal_melt_box1_cell sqrt cc st p).1.Toc i j =
      if i = p.1 ∧ j = p.2 then
        (if s.ocean_box_mask i j = 1 ∧ 0 < s.shelf_mask i j then
          (box1_cell sqrt cc s i j).Toc else 273.15)
      else st.1.Toc i j := by
  have hcell : ∀ t : Pico R, sameBox1Inputs s t →
      box1_cell sqrt cc t p.1 p.2 = box1_cell sqrt cc s p.1 p.2 :=
    fun t ht => box1_cell_congr sqrt cc s t ht p.1 p.2
  obtain ⟨h1, h2, h3, h4, h5, h6, h7, h8, h9, h10⟩ := h
  unfold calculate_basal_melt_box1_cell
  dsimp only
  rw [hcell, h1, h2]
  · by_cases hp : i = p.1 ∧ j = p.2
    · obtain ⟨rfl, rfl⟩ := hp
      by_cases hb : s.ocean_box_mask p.1 p.2 = 1 ∧ 0 < s.shelf_mask p.1 p.2
      · simp [hb, Field.set]
      · simp [hb, Field.set]
    · split
      · simp [hp, Field.set]
      · simp [hp, Field.set]
  · exact ⟨h1, h2, h3, h4, h5, h6, h7, h8, h9, h10⟩

/-- The value of the counter `lcountHelpterm` after one pass of the loop
body. -/
theorem calculate_basal_melt_box1_cell_count (sqrt : R → R) (cc : Constants R)
    (s : Pico R) (st : Pico R × Box1Sums R) (p : Int × Int)
    (h : sameBox1Inputs s st.1) :
    (calculate_basal_melt_box1_cell sqrt cc st p).2.lcountHelpterm =
      st.2.lcountHelpterm + (if box1_negative_at sqrt cc s p then 1 else 0) := by
  have hcell : ∀ t : Pico R, sameBox1Inputs s t →
      box1_cell sqrt cc t p.1 p.2 = box1_cell sqrt cc s p.1 p.2 :=
    fun t ht => box1_cell_congr sqrt cc s t ht p.1 p.2
  obtain ⟨h1, h2, h3, h4, h5, h6, h7, h8, h9, h10⟩ := h
  unfold calculate_basal_melt_box1_cell box1_negative_at
  dsimp only
  rw [hcell, h1, h2]
  · by_cases hb : s.ocean_box_mask p.1 p.2 = 1 ∧ 0 < s.shelf_mask p.1 p.2
    · by_cases hn : (box1_cell sqrt cc s p.1 p.2).negative = true
      · simp [hb, hn]
      · simp [hb, hn]
    · simp [hb]
  · exact ⟨h1, h2, h3, h4, h5, h6, h7, h8, h9, h10⟩

/-- The state after the loop over a list of points: the inputs are kept, `Toc`
holds the value computed at every box-1 shelf cell that was visited or already
held it, and `lcountHelpterm` has grown by the number of visited points at which
the discriminant was negative. -/
theorem calculate_basal_melt_box1_foldl (sqrt : R → R) (cc : Constants R) (s : Pico R) :
    ∀ (points : List (Int × Int)) (st : Pico R × Box1Sums R), sameBox1Inputs s st.1 →
      sameBox1Inputs s (points.foldl (calculate_basal_melt_box1_cell sqrt cc) st).1 ∧
      (∀ i j : Int, s.ocean_box_mask i j = 1 ∧ 0 < s.shelf_mask i j →
        ((i, j) ∈ points ∨ st.1.Toc i j = (box1_cell sqrt cc s i j).Toc) →
        (points.foldl (calculate_basal_melt_box1_cell sqrt cc) st).1.Toc i j =
          (box1_cell sqrt cc s i j).Toc) ∧
      (points.foldl (calculate_basal_melt_box1_cell sqrt cc) st).2.lcountHelpterm =
        st.2.lcountHelpterm + (points.countP (box1_negative_at sqrt cc s) : R) := by
  intro points
  induction points with
  | nil =>
    intro st h
    refine ⟨h, ?_, by simp⟩
    intro i j _ hij
    rcases hij with hij | hij
    · cases hij
    · exact hij
  | cons p points ih =>
    intro st h
    have hin := calculate_basal_melt_box1_cell_inputs sqrt cc s st p h
    obtain ⟨ih1, ih2, ih3⟩ := ih (calculate_basal_melt_box1_cell sqrt cc st p) hin
    rw [List.foldl_cons]
    refine ⟨ih1, ?_, ?_⟩
    · intro i j hb hij
      apply ih2 i j hb
      rw [calculate_basal_melt_box1_cell_Toc sqrt cc s st p h i j]
      by_cases hp : i = p.1 ∧ j = p.2
      · right
        simp [hp, hb]
        obtain ⟨rfl, rfl⟩ := hp
        simp [hb]
      · rcases hij with hij | hij
        · rcases List.mem_cons.mp hij with rfl | hij
          · exact absurd ⟨rfl, rfl⟩ hp
          · exact Or.inl hij
        · right
          simp [hp, hij]
    · rw [ih3, calculate_basal_melt_box1_cell_count sqrt cc s st p h, List.countP_cons]
      by_cases hn : box1_negative_at sqrt cc s p = true
      · simp [hn]; ring
      · simp [hn]

/-- The loop over the shelves of `calculate_basal_melt_box1` does not write
`Toc`. -/
theorem calculate_basal_melt_box1_shelf_Toc (l : Box1Sums R) :
    ∀ (shelves : List Int) (s : Pico R),
      (shelves.foldl (calculate_basal_melt_box1_shelf l) s).Toc = s.Toc := by
  intro shelves
  induction shelves with
  | nil => intro s; rfl
  | cons k shelves ih =>
    intro s
    rw [List.foldl_cons, ih]
    unfold calculate_basal_melt_box1_shelf
    dsimp only
    split <;> rfl

/-- Claim C9: after `calculate_basal_melt_box1`, at every grid cell `(i, j)` of box 1
of an ice shelf, `Toc` is `Toc_box0 - (-0.5 * p_coeff + sqrt(sqrt_argument))`
where `sqrt_argument = 0.25 * p_coeff^2 - q_coeff_used`.  When the discriminant
`0.25 * p_coeff^2 - q_coeff` is negative, `q_coeff` is replaced by
`0.25 * p_coeff^2`, the square-root argument is exactly zero and
`Toc = Toc_box0 + 0.5 * p_coeff`; otherwise `q_coeff` is left unchanged.  The
square-root argument is never negative, the function returns a state in every
case, and the counter `countHelpterm` is the number of grid points at which the
discriminant was negative. -/
theorem calculate_basal_melt_box1_discriminant (sqrt : R → R) (cc : Constants R)
    (s : Pico R) (i j : Int) (hsqrt : sqrt 0 = 0) (hmem : (i, j) ∈ s.grid)
    (hbox : s.ocean_box_mask i j = 1) (hshelf : 0 < s.shelf_mask i j) :
    (calculate_basal_melt_box1 sqrt cc s).1.Toc i j =
        s.Toc_box0 i j - (-0.5 * (box1_cell sqrt cc s i j).p_coeff +
          sqrt (box1_cell sqrt cc s i j).sqrt_argument) ∧
      (box1_cell sqrt cc s i j).sqrt_argument =
        0.25 * PetscSqr (box1_cell sqrt cc s i j).p_coeff -
          (box1_cell sqrt cc s i j).q_coeff_used ∧
      (0.25 * PetscSqr (box1_cell sqrt cc s i j).p_coeff -
            (box1_cell sqrt cc s i j).q_coeff < 0 →
        (box1_cell sqrt cc s i j).q_coeff_used =
            0.25 * PetscSqr (box1_cell sqrt cc s i j).p_coeff ∧
          (box1_cell sqrt cc s i j).sqrt_argument = 0 ∧
          (calculate_basal_melt_box1 sqrt cc s).1.Toc i j =
            s.Toc_box0 i j + 0.5 * (box1_cell sqrt cc s i j).p_coeff) ∧
      (¬ (0.25 * PetscSqr (box1_cell sqrt cc s i j).p_coeff -
            (box1_cell sqrt cc s i j).q_coeff < 0) →
        (box1_cell sqrt cc s i j).q_coeff_used = (box1_cell sqrt cc s i j).q_coeff) ∧
      0 ≤ (box1_cell sqrt cc s i j).sqrt_argument ∧
      (calculate_basal_melt_box1 sqrt cc s).2 =
        (s.grid.countP (box1_negative_at sqrt cc s) : R) := by
  have hself : sameBox1Inputs s s := ⟨rfl, rfl, rfl, rfl, rfl, rfl, rfl, rfl, rfl, rfl⟩
  obtain ⟨_, hToc, hcount⟩ := calculate_basal_melt_box1_foldl sqrt cc s s.grid
    (s, { lcounter_edge_of_box1_vector := fun _ => 0.0
          lmean_salinity_box1_vector := fun _ => 0.0
          lmean_temperature_box1_vector := fun _ => 0.0
          lmean_meltrate_box1_vector := fun _ => 0.0
          lmean_overturning_box1_vector := fun _ => 0.0
          lcountHelpterm := 0 }) hself
  have hfinal : (calculate_basal_melt_box1 sqrt cc s).1.Toc i j =
      (box1_cell sqrt cc s i j).Toc := by
    unfold calculate_basal_melt_box1
    dsimp only
    rw [calculate_basal_melt_box1_shelf_Toc]
    exact hToc i j ⟨hbox, hshelf⟩ (Or.inl hmem)
  have hform : (box1_cell sqrt cc s i j).Toc =
      s.Toc_box0 i j - (-0.5 * (box1_cell sqrt cc s i j).p_coeff +
        sqrt (box1_cell sqrt cc s i j).sqrt_argument) := rfl
  have hneg : 0.25 * PetscSqr (box1_cell sqrt cc s i j).p_coeff -
        (box1_cell sqrt cc s i j).q_coeff < 0 →
      (box1_cell sqrt cc s i j).q_coeff_used =
        0.25 * PetscSqr (box1_cell sqrt cc s i j).p_coeff := by
    intro h
    have h1 : 0.25 * PetscSqr (box1_cell sqrt cc s i j).p_coeff -
        (box1_cell sqrt cc s i j).q_coeff < 0.0 := by
      rw [show (0.0 : R) = 0 by norm_num]; exact h
    simp only [box1_cell] at h1 ⊢
    simp only [h1, decide_True, if_true]
  have hnonneg : ¬ (0.25 * PetscSqr (box1_cell sqrt cc s i j).p_coeff -
        (box1_cell sqrt cc s i j).q_coeff < 0) →
      (box1_cell sqrt cc s i j).q_coeff_used = (box1_cell sqrt cc s i j).q_coeff := by
    intro h
    have h1 : ¬ (0.25 * PetscSqr (box1_cell sqrt cc s i j).p_coeff -
        (box1_cell sqrt cc s i j).q_coeff < 0.0) := by
      rw [show (0.0 : R) = 0 by norm_num]; exact h
    simp only [box1_cell] at h1 ⊢
    simp only [h1, decide_False, if_false, Bool.false_eq_true]
  have harg : (box1_cell sqrt cc s i j).sqrt_argument =
      0.25 * PetscSqr (box1_cell sqrt cc s i j).p_coeff -
        (box1_cell sqrt cc s i j).q_coeff_used := rfl
  refine ⟨hfinal.trans hform, harg, ?_, hnonneg, ?_, ?_⟩
  · intro h
    have hzero : (box1_cell sqrt cc s i j).sqrt_argument = 0 := by
      rw [harg, hneg h, sub_self]
    refine ⟨hneg h, hzero, ?_⟩
    rw [hfinal, hform, hzero, hsqrt]
    ring
  · by_cases h : 0.25 * PetscSqr (box1_cell sqrt cc s i j).p_coeff -
        (box1_cell sqrt cc s i j).q_coeff < 0
    · rw [harg, hneg h, sub_self]
    · rw [harg, hnonneg h]
      exact not_lt.mp h
  · unfold calculate_basal_melt_box1
    dsimp only
    unfold calculate_basal_melt_box1_loop
    rw [hcount]
    simp

/-- At the cell `(0, 0)` of `sample_pico` the discriminant is negative, so the
branch that replaces `q_coeff` is taken (whatever `sqrt` is). -/
theorem box1_cell_sample_negative (sqrt : ℚ → ℚ) :
    (box1_cell sqrt (Constants.Constants (sample_config ℚ))
      (sample_pico ℚ) 0 0).negative = true := by
  simp only [box1_cell, sample_pico, sample_config, Constants.Constants, PetscSqr,
    decide_eq_true_eq]
  norm_num

/-- Witness of `calculate_basal_melt_box1_discriminant`: the cell `(0, 0)` of
`sample_pico` over the reals, with the real square root.  Its discriminant is
negative, so the square-root argument is `0` and `Toc` is
`Toc_box0 + 0.5 * p_coeff`. -/
theorem calculate_basal_melt_box1_discriminant_witness :
    (box1_cell Real.sqrt (Constants.Constants (sample_config ℝ))
        (sample_pico ℝ) 0 0).sqrt_argument = 0 ∧
      (calculate_basal_melt_box1 Real.sqrt (Constants.Constants (sample_config ℝ))
        (sample_pico ℝ)).1.Toc 0 0 =
        (sample_pico ℝ).Toc_box0 0 0 +
          0.5 * (box1_cell Real.sqrt (Constants.Constants (sample_config ℝ))
            (sample_pico ℝ) 0 0).p_coeff :=
  ((calculate_basal_melt_box1_discriminant Real.sqrt
    (Constants.Constants (sample_config ℝ)) (sample_pico ℝ) 0 0 Real.sqrt_zero
    (by simp [sample_pico]) rfl (by simp [sample_pico])).2.2.1
    (by
      simp only [box1_cell, sample_pico, sample_config, Constants.Constants, PetscSqr]
      norm_num)).2

/-- Claim C10: after `update_impl`, at every grid cell the shelf-base mass flux is the
ice density `rhoi` times the basal melt rate `basalmeltrate_shelf`, the
shelf-base temperature is `T_pressure_melting`, and the sea-level elevation and
the melange back-pressure fraction are `0`. -/
theorem update_impl_outputs (config : Config R) (ext : External R) (s : Pico R)
    (my_t my_dt : R) (i j : Int) :
    (update_impl config ext s my_t my_dt).m_shelf_base_mass_flux i j =
        (Constants.Constants config).rhoi *
          (update_impl config ext s my_t my_dt).basalmeltrate_shelf i j ∧
      (update_impl config ext s my_t my_dt).m_shelf_base_temperature i j =
        (update_impl config ext s my_t my_dt).T_pressure_melting i j ∧
      (update_impl config ext s my_t my_dt).m_sea_level_elevation i j = 0 ∧
      (update_impl config ext s my_t my_dt).m_melange_back_pressure_fraction i j = 0 := by
  have hzero : (0.0 : R) = 0 := by norm_num
  simp only [update_impl]
  exact ⟨mul_comm _ _, trivial, hzero, hzero⟩

/-- The sums accumulated for the basin `id` by the loop over a list of grid
points: the count grows by the number of points of the continental-shelf mask
in basin `id`, the two other sums by the salinity and the temperature at these
points. -/
theorem compute_ocean_input_per_basin_cell_foldl (s : Pico R) (id : Int) :
    ∀ (points : List (Int × Int)) (l : BasinSums R),
      (points.foldl (compute_ocean_input_per_basin_cell s) l).lm_count id =
          l.lm_count id + ((points.filter (fun p =>
            decide (s.ocean_contshelf_mask p.1 p.2 = s.imask_inner ∧
              s.cbasins p.1 p.2 = id))).length : R) ∧
        (points.foldl (compute_ocean_input_per_basin_cell s) l).lm_Sval id =
          l.lm_Sval id + ((points.filter (fun p =>
            decide (s.ocean_contshelf_mask p.1 p.2 = s.imask_inner ∧
              s.cbasins p.1 p.2 = id))).map (fun p => s.m_salinity_ocean p.1 p.2)).sum ∧
        (points.foldl (compute_ocean_input_per_basin_cell s) l).lm_Tval id =
          l.lm_Tval id + ((points.filter (fun p =>
            decide (s.ocean_contshelf_mask p.1 p.2 = s.imask_inner ∧
              s.cbasins p.1 p.2 = id))).map (fun p => s.m_theta_ocean p.1 p.2)).sum := by
  intro points
  induction points with
  | nil => intro l; simp
  | cons p points ih =>
    intro l
    rw [List.foldl_cons]
    obtain ⟨h1, h2, h3⟩ := ih (compute_ocean_input_per_basin_cell s l p)
    rw [h1, h2, h3]
    unfold compute_ocean_input_per_basin_cell
    dsimp only
    by_cases hm : s.ocean_contshelf_mask p.1 p.2 = s.imask_inner
    · by_cases hb : s.cbasins p.1 p.2 = id
      · subst hb
        refine ⟨?_, ?_, ?_⟩ <;> simp [hm, vecSet, List.filter_cons] <;> ring
      · have hb2 : ¬ id = s.cbasins p.1 p.2 := fun h => hb h.symm
        simp [hm, hb, hb2, vecSet, List.filter_cons]
    · simp [hm, List.filter_cons]

/-- The sums of `compute_ocean_input_per_basin` for the basin `id`, in terms of
`basin_cells`. -/
theorem compute_ocean_input_per_basin_sums_eq (s : Pico R) (id : Int) :
    (compute_ocean_input_per_basin_sums s).lm_count id = ((basin_cells s id).length : R) ∧
      (compute_ocean_input_per_basin_sums s).lm_Sval id =
        ((basin_cells s id).map (fun p => s.m_salinity_ocean p.1 p.2)).sum ∧
      (compute_ocean_input_per_basin_sums s).lm_Tval id =
        ((basin_cells s id).map (fun p => s.m_theta_ocean p.1 p.2)).sum := by
  obtain ⟨h1, h2, h3⟩ := compute_ocean_input_per_basin_cell_foldl s id s.grid
    { lm_count := fun _ => 0, lm_Sval := fun _ => 0, lm_Tval := fun _ => 0 }
  unfold compute_ocean_input_per_basin_sums basin_cells
  rw [h1, h2, h3]
  simp

/-- The entries of `Toc_box0_vec` and `Soc_box0_vec` for the basin `id` after the
loop over a list of basins: when `id` is in the list they hold the dummy values
if `0 < id` and the count is zero, and the quotients of the sums by the count
otherwise. -/
theorem compute_ocean_input_per_basin_basin_foldl (cc : Constants R) (l : BasinSums R)
    (id : Int) :
    ∀ (ids : List Int) (st : Pico R), id ∈ ids →
      (ids.foldl (compute_ocean_input_per_basin_basin cc l) st).Toc_box0_vec id =
          (if 0 < id ∧ l.lm_count id = 0 then cc.T_dummy
            else l.lm_Tval id / l.lm_count id) ∧
        (ids.foldl (compute_ocean_input_per_basin_basin cc l) st).Soc_box0_vec id =
          (if 0 < id ∧ l.lm_count id = 0 then cc.S_dummy
            else l.lm_Sval id / l.lm_count id) := by
  have hkeep : ∀ (ids : List Int) (st : Pico R), id ∉ ids →
      (ids.foldl (compute_ocean_input_per_basin_basin cc l) st).Toc_box0_vec id =
          st.Toc_box0_vec id ∧
        (ids.foldl (compute_ocean_input_per_basin_basin cc l) st).Soc_box0_vec id =
          st.Soc_box0_vec id := by
    intro ids
    induction ids with
    | nil => intro st _; exact ⟨rfl, rfl⟩
    | cons k ids ih =>
      intro st hk
      rw [List.foldl_cons]
      obtain ⟨h1, h2⟩ := ih (compute_ocean_input_per_basin_basin cc l st k)
        (fun h => hk (List.mem_cons_of_mem _ h))
      have hne : ¬ id = k := fun h => hk (h ▸ List.mem_cons_self _ _)
      rw [h1, h2]
      unfold compute_ocean_input_per_basin_basin
      dsimp only
      split <;> simp [vecSet, hne]
  intro ids
  induction ids with
  | nil => intro st h; cases h
  | cons k ids ih =>
    intro st hmem
    rw [List.foldl_cons]
    by_cases hin : id ∈ ids
    · exact ih _ hin
    · have hk : id = k := by
        rcases List.mem_cons.mp hmem with h | h
        · exact h
        · exact absurd h hin
      subst hk
      obtain ⟨h1, h2⟩ := hkeep ids (compute_ocean_input_per_basin_basin cc l st id) hin
      rw [h1, h2]
      unfold compute_ocean_input_per_basin_basin
      dsimp only
      split <;> simp [vecSet]

/-- The entries of `Toc_box0_vec` and `Soc_box0_vec` after
`compute_ocean_input_per_basin`, for a basin `id` in `[0, numberOfBasins)`. -/
theorem compute_ocean_input_per_basin_value (cc : Constants R) (s : Pico R) (id : Int)
    (h0 : 0 ≤ id) (hn : id < s.numberOfBasins) :
    (compute_ocean_input_per_basin cc s).Toc_box0_vec id =
        (if 0 < id ∧ (compute_ocean_input_per_basin_sums s).lm_count id = 0 then cc.T_dummy
          else (compute_ocean_input_per_basin_sums s).lm_Tval id /
            (compute_ocean_input_per_basin_sums s).lm_count id) ∧
      (compute_ocean_input_per_basin cc s).Soc_box0_vec id =
        (if 0 < id ∧ (compute_ocean_input_per_basin_sums s).lm_count id = 0 then cc.S_dummy
          else (compute_ocean_input_per_basin_sums s).lm_Sval id /
            (compute_ocean_input_per_basin_sums s).lm_count id) :=
  compute_ocean_input_per_basin_basin_foldl cc (compute_ocean_input_per_basin_sums s) id
    (intRange 0 s.numberOfBasins) s ((mem_intRange 0 s.numberOfBasins id).mpr ⟨h0, hn⟩)

/-- The loop over the basins of lines 540-543 at the cell `(i, j)`: it adds the
weighted entries to `Toc_box0` and `Soc_box0` at `(i, j)`, and leaves the other
cells and the members listed in `sameBox0Inputs` alone. -/
theorem set_ocean_input_fields_basins_spec (counter : ShelfCounters R)
    (i j shelf_id : Int) :
    ∀ (basins : List Int) (t : Pico R),
      (set_ocean_input_fields_basins counter i j shelf_id basins t).Toc_box0 i j =
          basins.foldl (fun acc basin_id => acc + t.Toc_box0_vec basin_id *
            counter.lcounter_shelf_cells_in_basin shelf_id basin_id /
            counter.lcounter_shelf_cells shelf_id) (t.Toc_box0 i j) ∧
        (set_ocean_input_fields_basins counter i j shelf_id basins t).Soc_box0 i j =
          basins.foldl (fun acc basin_id => acc + t.Soc_box0_vec basin_id *
            counter.lcounter_shelf_cells_in_basin shelf_id basin_id /
            counter.lcounter_shelf_cells shelf_id) (t.Soc_box0 i j) ∧
        (∀ a b : Int, ¬ (a = i ∧ b = j) →
          (set_ocean_input_fields_basins counter i j shelf_id basins t).Toc_box0 a b =
            t.Toc_box0 a b ∧
          (set_ocean_input_fields_basins counter i j shelf_id basins t).Soc_box0 a b =
            t.Soc_box0 a b) ∧
        sameBox0Inputs t (set_ocean_input_fields_basins counter i j shelf_id basins t) := by
  intro basins
  induction basins with
  | nil =>
    intro t
    exact ⟨rfl, rfl, fun _ _ _ => ⟨rfl, rfl⟩, rfl, rfl, rfl, rfl, rfl, rfl, rfl⟩
  | cons k basins ih =>
    intro t
    unfold set_ocean_input_fields_basins at ih ⊢
    simp only [List.foldl_cons]
    obtain ⟨h1, h2, h3, h4, h5, h6, h7, h8, h9, h10⟩ := ih
      { t with
        Toc_box0 := Field.set t.Toc_box0 i j
          (t.Toc_box0 i j + t.Toc_box0_vec k *
            counter.lcounter_shelf_cells_in_basin shelf_id k /
            counter.lcounter_shelf_cells shelf_id)
        Soc_box0 := Field.set t.Soc_box0 i j
          (t.Soc_box0 i j + t.Soc_box0_vec k *
            counter.lcounter_shelf_cells_in_basin shelf_id k /
            counter.lcounter_shelf_cells shelf_id) }
    refine ⟨?_, ?_, ?_, h4, h5, h6, h7, h8, h9, h10⟩
    · rw [h1]
      simp [Field.set]
    · rw [h2]
      simp [Field.set]
    · intro a b hab
      obtain ⟨ha, hb⟩ := h3 a b hab
      rw [ha, hb]
      simp [Field.set, hab]

/-- The loop over the basins inside `set_ocean_input_fields_cell` is
`set_ocean_input_fields_basins`. -/
theorem set_ocean_input_fields_basins_eq (counter : ShelfCounters R) (i j shelf_id : Int)
    (basins : List Int) (t : Pico R) :
    basins.foldl
      (fun (s : Pico R) basin_id => { s with
        Toc_box0 := Field.set s.Toc_box0 i j
          (s.Toc_box0 i j + s.Toc_box0_vec basin_id *
            counter.lcounter_shelf_cells_in_basin shelf_id basin_id /
            counter.lcounter_shelf_cells shelf_id)
        Soc_box0 := Field.set s.Soc_box0 i j
          (s.Soc_box0 i j + s.Soc_box0_vec basin_id *
            counter.lcounter_shelf_cells_in_basin shelf_id basin_id /
            counter.lcounter_shelf_cells shelf_id) }) t =
      set_ocean_input_fields_basins counter i j shelf_id basins t :=
  rfl

/-- One pass of the loop of lines 527-559 keeps the members listed in
`sameBox0Inputs`, writes `box0_cell_Toc` and `box0_cell_Soc` at its cell, and
leaves `Toc_box0` and `Soc_box0` alone at the other cells. -/
theorem set_ocean_input_fields_cell_spec (cc : Constants R) (counter : ShelfCounters R)
    (s : Pico R) (st : Pico R × R) (p : Int × Int) (h : sameBox0Inputs s st.1) :
    sameBox0Inputs s (set_ocean_input_fields_cell cc counter st p).1 ∧
      ∀ a b : Int,
        (set_ocean_input_fields_cell cc counter st p).1.Toc_box0 a b =
            (if a = p.1 ∧ b = p.2 then box0_cell_Toc cc counter s a b
              else st.1.Toc_box0 a b) ∧
          (set_ocean_input_fields_cell cc counter st p).1.Soc_box0 a b =
            (if a = p.1 ∧ b = p.2 then box0_cell_Soc counter s a b
              else st.1.Soc_box0 a b) := by
  obtain ⟨g1, g2, g3, g4, g5, g6, g7⟩ := h
  have hzero : (0.0 : R) = 0 := by norm_num
  unfold set_ocean_input_fields_cell
  dsimp only
  simp only [set_ocean_input_fields_basins_eq]
  obtain ⟨k1, k2, k3, k4, k5, k6, k7, k8, k9, k10⟩ :=
    set_ocean_input_fields_basins_spec counter p.1 p.2 (st.1.shelf_mask p.1 p.2)
      (intRange 1 st.1.numberOfBasins)
      { st.1 with
        Toc := Field.set st.1.Toc p.1 p.2 273.15
        Toc_box0 := Field.set st.1.Toc_box0 p.1 p.2 0.0
        Soc_box0 := Field.set st.1.Soc_box0 p.1 p.2 0.0 }
  dsimp only at k1 k2 k3 k4 k5 k6 k7 k8 k9 k10
  generalize set_ocean_input_fields_basins counter p.1 p.2 (st.1.shelf_mask p.1 p.2)
      (intRange 1 st.1.numberOfBasins)
      { st.1 with
        Toc := Field.set st.1.Toc p.1 p.2 273.15
        Toc_box0 := Field.set st.1.Toc_box0 p.1 p.2 0.0
        Soc_box0 := Field.set st.1.Soc_box0 p.1 p.2 0.0 } = t at k1 k2 k3 k4 k5 k6 k7 k8 k9 k10 ⊢
  have hT : t.Toc_box0 p.1 p.2 =
      weighted_input s.Toc_box0_vec counter s.numberOfBasins (s.shelf_mask p.1 p.2) := by
    rw [k1, g1, g5, g7]
    simp [Field.set, weighted_input, hzero]
  have hS : t.Soc_box0 p.1 p.2 =
      weighted_input s.Soc_box0_vec counter s.numberOfBasins (s.shelf_mask p.1 p.2) := by
    rw [k2, g2, g5, g7]
    simp [Field.set, weighted_input, hzero]
  by_cases hf : st.1.mask p.1 p.2 = st.1.maskfloating ∧ 0 < st.1.shelf_mask p.1 p.2
  · have hfs : s.mask p.1 p.2 = s.maskfloating ∧ 0 < s.shelf_mask p.1 p.2 := by
      rw [← g4, ← g5, ← g6]; exact hf
    rw [if_pos hf]
    by_cases hlt : t.Toc_box0 p.1 p.2 <
        cc.a * t.Soc_box0 p.1 p.2 + cc.b -
          cc.c * (cc.rhoi * cc.earth_grav * t.ice_thickness p.1 p.2 * 1e-4)
    · rw [if_pos hlt]
      refine ⟨⟨k4.trans g1, k5.trans g2, k6.trans g3, k7.trans g4, k8.trans g5,
        k9.trans g6, k10.trans g7⟩, ?_⟩
      intro a b
      by_cases hab : a = p.1 ∧ b = p.2
      · obtain ⟨rfl, rfl⟩ := hab
        rw [hT, hS, k6, g3] at hlt
        simp [Field.set, box0_cell_Toc, box0_cell_Soc, hfs, hlt, hS, k6, g3]
      · obtain ⟨ha, hb⟩ := k3 a b hab
        simp [Field.set, hab, ha, hb]
    · rw [if_neg hlt]
      refine ⟨⟨k4.trans g1, k5.trans g2, k6.trans g3, k7.trans g4, k8.trans g5,
        k9.trans g6, k10.trans g7⟩, ?_⟩
      intro a b
      by_cases hab : a = p.1 ∧ b = p.2
      · obtain ⟨rfl, rfl⟩ := hab
        rw [hT, hS, k6, g3] at hlt
        simp [box0_cell_Toc, box0_cell_Soc, hfs, hlt, hS, hT]
      · obtain ⟨ha, hb⟩ := k3 a b hab
        simp [Field.set, hab, ha, hb]
  · have hfs : ¬ (s.mask p.1 p.2 = s.maskfloating ∧ 0 < s.shelf_mask p.1 p.2) := by
      rw [← g4, ← g5, ← g6]; exact hf
    rw [if_neg hf]
    refine ⟨⟨g1, g2, g3, g4, g5, g6, g7⟩, ?_⟩
    intro a b
    by_cases hab : a = p.1 ∧ b = p.2
    · obtain ⟨rfl, rfl⟩ := hab
      simp [Field.set, box0_cell_Toc, box0_cell_Soc, hfs, hzero]
    · simp [Field.set, hab]

/-- The state after the loop of lines 527-559 over a list of points: the inputs
are kept, and `Toc_box0` and `Soc_box0` hold `box0_cell_Toc` and `box0_cell_Soc`
at every cell that was visited or already held them. -/
theorem set_ocean_input_fields_cell_foldl (cc : Constants R) (counter : ShelfCounters R)
    (s : Pico R) :
    ∀ (points : List (Int × Int)) (st : Pico R × R), sameBox0Inputs s st.1 →
      sameBox0Inputs s (points.foldl (set_ocean_input_fields_cell cc counter) st).1 ∧
      ∀ a b : Int,
        ((a, b) ∈ points ∨
          (st.1.Toc_box0 a b = box0_cell_Toc cc counter s a b ∧
            st.1.Soc_box0 a b = box0_cell_Soc counter s a b)) →
        (points.foldl (set_ocean_input_fields_cell cc counter) st).1.Toc_box0 a b =
            box0_cell_Toc cc counter s a b ∧
          (points.foldl (set_ocean_input_fields_cell cc counter) st).1.Soc_box0 a b =
            box0_cell_Soc counter s a b := by
  intro points
  induction points with
  | nil =>
    intro st h
    refine ⟨h, ?_⟩
    intro a b hab
    rcases hab with hab | hab
    · cases hab
    · exact hab
  | cons p points ih =>
    intro st h
    obtain ⟨hin, hval⟩ := set_ocean_input_fields_cell_spec cc counter s st p h
    obtain ⟨ih1, ih2⟩ := ih (set_ocean_input_fields_cell cc counter st p) hin
    rw [List.foldl_cons]
    refine ⟨ih1, ?_⟩
    intro a b hab
    apply ih2 a b
    obtain ⟨hT, hS⟩ := hval a b
    by_cases hp : a = p.1 ∧ b = p.2
    · right
      rw [hT, hS]
      simp [hp]
    · rcases hab with hab | hab
      · rcases List.mem_cons.mp hab with rfl | hab
        · exact absurd ⟨rfl, rfl⟩ hp
        · exact Or.inl hab
      · right
        rw [hT, hS]
        simp [hp, hab]

/-- Claim C11: after `set_ocean_input_fields`, at every floating grid cell with
`shelf_mask > 0`, `Toc_box0` is at least the local pressure melting point
`T_pmt = a * Soc_box0 + b - c * pressure` with
`pressure = rhoi * earth_grav * thickness * 1e-4`: `Soc_box0` is the weighted
input salinity of the shelf, and `Toc_box0` is the weighted input temperature
when that is at least `T_pmt`, and `T_pmt + 0.001` otherwise. -/
theorem set_ocean_input_fields_pressure_melting (cc : Constants R) (s : Pico R)
    (i j : Int) (hmem : (i, j) ∈ s.grid) (hfloat : s.mask i j = s.maskfloating)
    (hshelf : 0 < s.shelf_mask i j) :
    cc.a * (set_ocean_input_fields cc s).Soc_box0 i j + cc.b -
          cc.c * (cc.rhoi * cc.earth_grav * s.ice_thickness i j * 1e-4) ≤
        (set_ocean_input_fields cc s).Toc_box0 i j ∧
      (set_ocean_input_fields cc s).Soc_box0 i j =
        weighted_input s.Soc_box0_vec (set_ocean_input_fields_counter s) s.numberOfBasins
          (s.shelf_mask i j) ∧
      (cc.a * (set_ocean_input_fields cc s).Soc_box0 i j + cc.b -
            cc.c * (cc.rhoi * cc.earth_grav * s.ice_thickness i j * 1e-4) ≤
          weighted_input s.Toc_box0_vec (set_ocean_input_fields_counter s) s.numberOfBasins
            (s.shelf_mask i j) →
        (set_ocean_input_fields cc s).Toc_box0 i j =
          weighted_input s.Toc_box0_vec (set_ocean_input_fields_counter s) s.numberOfBasins
            (s.shelf_mask i j)) ∧
      (weighted_input s.Toc_box0_vec (set_ocean_input_fields_counter s) s.numberOfBasins
            (s.shelf_mask i j) <
          cc.a * (set_ocean_input_fields cc s).Soc_box0 i j + cc.b -
            cc.c * (cc.rhoi * cc.earth_grav * s.ice_thickness i j * 1e-4) →
        (set_ocean_input_fields cc s).Toc_box0 i j =
          cc.a * (set_ocean_input_fields cc s).Soc_box0 i j + cc.b -
            cc.c * (cc.rhoi * cc.earth_grav * s.ice_thickness i j * 1e-4) + 0.001) := by
  have hself : sameBox0Inputs s s := ⟨rfl, rfl, rfl, rfl, rfl, rfl, rfl⟩
  obtain ⟨_, hval⟩ := set_ocean_input_fields_cell_foldl cc
    (set_ocean_input_fields_counter s) s s.grid (s, 0) hself
  obtain ⟨hT, hS⟩ := hval i j (Or.inl hmem)
  have hT2 : (set_ocean_input_fields cc s).Toc_box0 i j =
      box0_cell_Toc cc (set_ocean_input_fields_counter s) s i j := hT
  have hS2 : (set_ocean_input_fields cc s).Soc_box0 i j =
      box0_cell_Soc (set_ocean_input_fields_counter s) s i j := hS
  have hS3 : (set_ocean_input_fields cc s).Soc_box0 i j =
      weighted_input s.Soc_box0_vec (set_ocean_input_fields_counter s) s.numberOfBasins
        (s.shelf_mask i j) := by
    rw [hS2]; simp [box0_cell_Soc, hfloat, hshelf]
  rw [hS3, hT2]
  unfold box0_cell_Toc
  rw [if_pos ⟨hfloat, hshelf⟩]
  have hpos : (0 : R) < 0.001 := by norm_num
  refine ⟨?_, rfl, ?_, ?_⟩
  · split
    · linarith
    · rename_i h
      exact not_lt.mp h
  · intro h
    rw [if_neg (not_lt.mpr h)]
  · intro h
    rw [if_pos h]

/-- One pass of the loop of `calculate_basal_melt_missing_cells` does not write
`shelf_mask`, and a cell of shelf number zero holds a zero melt rate after the
pass when it is the cell of the pass or held zero before. -/
theorem calculate_basal_melt_missing_cells_cell_spec (cc : Constants R) (t : Pico R)
    (p : Int × Int) :
    (calculate_basal_melt_missing_cells_cell cc t p).shelf_mask = t.shelf_mask ∧
      ∀ a b : Int, t.shelf_mask a b = 0 →
        ((a = p.1 ∧ b = p.2) ∨ t.basalmeltrate_shelf a b = 0) →
        (calculate_basal_melt_missing_cells_cell cc t p).basalmeltrate_shelf a b = 0 := by
  have hzero : (0.0 : R) = 0 := by norm_num
  unfold calculate_basal_melt_missing_cells_cell
  dsimp only
  by_cases h0 : t.shelf_mask p.1 p.2 = 0
  · have hnot : ¬ (0 < t.shelf_mask p.1 p.2) := by omega
    simp only [h0, if_true, lt_irrefl, false_and, if_false]
    refine ⟨trivial, ?_⟩
    intro a b _ hab
    by_cases hp : a = p.1 ∧ b = p.2
    · simp [Field.set, hp, hzero]
    · rcases hab with hab | hab
      · exact absurd hab hp
      · simp [Field.set, hp, hab]
  · simp only [h0, if_false]
    constructor
    · split <;> rfl
    · intro a b hshelf hab
      have hp : ¬ (a = p.1 ∧ b = p.2) := by
        rintro ⟨rfl, rfl⟩
        exact h0 hshelf
      rcases hab with hab | hab
      · exact absurd hab hp
      · split
        · simp [Field.set, hp, hab]
        · exact hab

/-- Claim C14: after `calculate_basal_melt_missing_cells`, every grid cell whose
`shelf_mask` is zero has a basal melt rate `basalmeltrate_shelf` of `0`,
whatever its value was before. -/
theorem calculate_basal_melt_missing_cells_no_shelf (cc : Constants R) (s : Pico R)
    (i j : Int) (hmem : (i, j) ∈ s.grid) (hshelf : s.shelf_mask i j = 0) :
    (calculate_basal_melt_missing_cells cc s).basalmeltrate_shelf i j = 0 := by
  have hfold : ∀ (points : List (Int × Int)) (t : Pico R), t.shelf_mask = s.shelf_mask →
      ((i, j) ∈ points ∨ t.basalmeltrate_shelf i j = 0) →
      (points.foldl (calculate_basal_melt_missing_cells_cell cc) t).basalmeltrate_shelf
        i j = 0 := by
    intro points
    induction points with
    | nil =>
      intro t _ h
      rcases h with h | h
      · cases h
      · exact h
    | cons p points ih =>
      intro t ht h
      obtain ⟨h1, h2⟩ := calculate_basal_melt_missing_cells_cell_spec cc t p
      rw [List.foldl_cons]
      apply ih _ (h1.trans ht)
      by_cases hp : i = p.1 ∧ j = p.2
      · exact Or.inr (h2 i j (by rw [ht]; exact hshelf) (Or.inl hp))
      · rcases h with h | h
        · rcases List.mem_cons.mp h with rfl | h
          · exact absurd ⟨rfl, rfl⟩ hp
          · exact Or.inl h
        · exact Or.inr (h2 i j (by rw [ht]; exact hshelf) (Or.inr h))
  exact hfold s.grid s rfl (Or.inl hmem)

/-- Witness of `set_ocean_input_fields_pressure_melting`: the floating cell
`(0, 0)` of `sample_pico`. -/
theorem set_ocean_input_fields_pressure_melting_witness :
    (Constants.Constants (sample_config ℚ)).a *
          (set_ocean_input_fields (Constants.Constants (sample_config ℚ))
            (sample_pico ℚ)).Soc_box0 0 0 + (Constants.Constants (sample_config ℚ)).b -
        (Constants.Constants (sample_config ℚ)).c *
          ((Constants.Constants (sample_config ℚ)).rhoi *
            (Constants.Constants (sample_config ℚ)).earth_grav *
            (sample_pico ℚ).ice_thickness 0 0 * 1e-4) ≤
      (set_ocean_input_fields (Constants.Constants (sample_config ℚ))
        (sample_pico ℚ)).Toc_box0 0 0 :=
  (set_ocean_input_fields_pressure_melting (Constants.Constants (sample_config ℚ))
    (sample_pico ℚ) 0 0 (by simp [sample_pico]) rfl (by simp [sample_pico])).1

/-- Witness of `calculate_basal_melt_missing_cells_no_shelf`: the cell `(0, 0)`
of `sample_pico_no_shelf`, whose melt rate was 5 before. -/
theorem calculate_basal_melt_missing_cells_no_shelf_witness :
    (sample_pico_no_shelf ℚ).basalmeltrate_shelf 0 0 = 5 ∧
      (calculate_basal_melt_missing_cells (Constants.Constants (sample_config ℚ))
        (sample_pico_no_shelf ℚ)).basalmeltrate_shelf 0 0 = 0 :=
  ⟨rfl, calculate_basal_melt_missing_cells_no_shelf (Constants.Constants (sample_config ℚ))
    (sample_pico_no_shelf ℚ) 0 0 (by simp [sample_pico_no_shelf, sample_pico]) rfl⟩

/-- Claim C12, as stated, fails for the basin 0: in `sample_pico` no grid cell
lies on the continental shelf, so the basin 0 (inside `[0, numberOfBasins)`)
contains no cell to average over, and yet after
`compute_ocean_input_per_basin` the entry `Toc_box0_vec[0]` is not `T_dummy`:
the pass for the basin 0 takes the dividing branch, with a count of zero. -/
theorem compute_ocean_input_per_basin_basin_zero :
    basin_cells (sample_pico ℚ) 0 = [] ∧
      (0 : Int) < (sample_pico ℚ).numberOfBasins ∧
      compute_ocean_input_per_basin_divides
        (compute_ocean_input_per_basin_sums (sample_pico ℚ)) 0 = true ∧
      (compute_ocean_input_per_basin_sums (sample_pico ℚ)).lm_count 0 = 0 ∧
      (compute_ocean_input_per_basin (Constants.Constants (sample_config ℚ))
          (sample_pico ℚ)).Toc_box0_vec 0 ≠
        (Constants.Constants (sample_config ℚ)).T_dummy := by
  have hcells : basin_cells (sample_pico ℚ) 0 = [] := by
    simp [basin_cells, sample_pico]
  have hcount : (compute_ocean_input_per_basin_sums (sample_pico ℚ)).lm_count 0 = 0 := by
    rw [(compute_ocean_input_per_basin_sums_eq (sample_pico ℚ) 0).1, hcells]
    simp
  refine ⟨hcells, by simp [sample_pico], ?_, hcount, ?_⟩
  · simp [compute_ocean_input_per_basin_divides]
  · rw [(compute_ocean_input_per_basin_value (Constants.Constants (sample_config ℚ))
      (sample_pico ℚ) 0 (le_refl 0) (by simp [sample_pico])).1, hcount]
    norm_num [Constants.Constants, sample_config]

/-- Claim C12, amended: for every basin `id` in `[1, numberOfBasins)` that
contains no grid cell of the continental shelf, `compute_ocean_input_per_basin`
sets `Toc_box0_vec[id]` to `T_dummy` and `Soc_box0_vec[id]` to `S_dummy`, and the
pass for that basin performs no division; more generally a pass for a basin
`k > 0` that divides does so by a nonzero count. -/
theorem compute_ocean_input_per_basin_dummy (cc : Constants R) (s : Pico R) (id : Int)
    (h0 : 0 < id) (hn : id < s.numberOfBasins) (hempty : basin_cells s id = []) :
    (compute_ocean_input_per_basin cc s).Toc_box0_vec id = cc.T_dummy ∧
      (compute_ocean_input_per_basin cc s).Soc_box0_vec id = cc.S_dummy ∧
      compute_ocean_input_per_basin_divides (compute_ocean_input_per_basin_sums s) id =
        false ∧
      ∀ k : Int, 0 < k →
        compute_ocean_input_per_basin_divides (compute_ocean_input_per_basin_sums s) k =
          true →
        (compute_ocean_input_per_basin_sums s).lm_count k ≠ 0 := by
  have hcount : (compute_ocean_input_per_basin_sums s).lm_count id = 0 := by
    rw [(compute_ocean_input_per_basin_sums_eq s id).1, hempty]
    simp
  obtain ⟨hT, hS⟩ := compute_ocean_input_per_basin_value cc s id (le_of_lt h0) hn
  refine ⟨?_, ?_, ?_, ?_⟩
  · rw [hT, if_pos ⟨h0, hcount⟩]
  · rw [hS, if_pos ⟨h0, hcount⟩]
  · simp [compute_ocean_input_per_basin_divides, h0, hcount]
  · intro k hk hdiv hzero
    simp [compute_ocean_input_per_basin_divides, hk, hzero] at hdiv

/-- Witness of `compute_ocean_input_per_basin_dummy`: the basin 1 of
`sample_pico`, where no grid cell lies on the continental shelf. -/
theorem compute_ocean_input_per_basin_dummy_witness :
    (compute_ocean_input_per_basin (Constants.Constants (sample_config ℚ))
        (sample_pico ℚ)).Toc_box0_vec 1 =
      (Constants.Constants (sample_config ℚ)).T_dummy :=
  (compute_ocean_input_per_basin_dummy (Constants.Constants (sample_config ℚ))
    (sample_pico ℚ) 1 (by decide) (by simp [sample_pico])
    (by simp [basin_cells, sample_pico])).1

/-- Claim C18: for every basin `id` in `[0, numberOfBasins)` with at least one
grid cell satisfying `ocean_contshelf_mask == imask_inner` and `cbasins == id`,
after `compute_ocean_input_per_basin` the entry `Toc_box0_vec[id]` is the sum of
`theta_ocean` over exactly those cells divided by their number, and
`Soc_box0_vec[id]` is the same mean of `salinity_ocean`.  The two entries are the
same for any other state with the same grid, masks and basins whose ocean
fields agree on those cells: the other cells do not influence them. -/
theorem compute_ocean_input_per_basin_mean (cc : Constants R) (s : Pico R) (id : Int)
    (h0 : 0 ≤ id) (hn : id < s.numberOfBasins) (hcells : basin_cells s id ≠ []) :
    (compute_ocean_input_per_basin cc s).Toc_box0_vec id =
        ((basin_cells s id).map (fun p => s.m_theta_ocean p.1 p.2)).sum /
          ((basin_cells s id).length : R) ∧
      (compute_ocean_input_per_basin cc s).Soc_box0_vec id =
        ((basin_cells s id).map (fun p => s.m_salinity_ocean p.1 p.2)).sum /
          ((basin_cells s id).length : R) ∧
      ∀ (cc1 : Constants R) (s1 : Pico R), s1.grid = s.grid →
        s1.ocean_contshelf_mask = s.ocean_contshelf_mask → s1.imask_inner = s.imask_inner →
        s1.cbasins = s.cbasins → s1.numberOfBasins = s.numberOfBasins →
        (∀ p ∈ basin_cells s id, s1.m_theta_ocean p.1 p.2 = s.m_theta_ocean p.1 p.2 ∧
          s1.m_salinity_ocean p.1 p.2 = s.m_salinity_ocean p.1 p.2) →
        (compute_ocean_input_per_basin cc1 s1).Toc_box0_vec id =
            (compute_ocean_input_per_basin cc s).Toc_box0_vec id ∧
          (compute_ocean_input_per_basin cc1 s1).Soc_box0_vec id =
            (compute_ocean_input_per_basin cc s).Soc_box0_vec id := by
  have hmean : ∀ (cc2 : Constants R) (s2 : Pico R), id < s2.numberOfBasins →
      basin_cells s2 id ≠ [] →
      (compute_ocean_input_per_basin cc2 s2).Toc_box0_vec id =
          ((basin_cells s2 id).map (fun p => s2.m_theta_ocean p.1 p.2)).sum /
            ((basin_cells s2 id).length : R) ∧
        (compute_ocean_input_per_basin cc2 s2).Soc_box0_vec id =
          ((basin_cells s2 id).map (fun p => s2.m_salinity_ocean p.1 p.2)).sum /
            ((basin_cells s2 id).length : R) := by
    intro cc2 s2 hn2 hcells2
    obtain ⟨hc, hS, hT⟩ := compute_ocean_input_per_basin_sums_eq s2 id
    have hlen : ((basin_cells s2 id).length : R) ≠ 0 := by
      rw [Nat.cast_ne_zero]
      exact fun h => hcells2 (List.length_eq_zero.mp h)
    have hcond : ¬ (0 < id ∧ (compute_ocean_input_per_basin_sums s2).lm_count id = 0) := by
      rw [hc]
      exact fun h => hlen h.2
    obtain ⟨h1, h2⟩ := compute_ocean_input_per_basin_value cc2 s2 id h0 hn2
    rw [h1, h2, if_neg hcond, if_neg hcond, hc, hS, hT]
    exact ⟨rfl, rfl⟩
  refine ⟨(hmean cc s hn hcells).1, (hmean cc s hn hcells).2, ?_⟩
  intro cc1 s1 hgrid hmask hinner hbasins hnum hagree
  have hsame : basin_cells s1 id = basin_cells s id := by
    unfold basin_cells
    rw [hgrid, hmask, hinner, hbasins]
  obtain ⟨hT1, hS1⟩ := hmean cc1 s1 (by rw [hnum]; exact hn) (by rw [hsame]; exact hcells)
  rw [hT1, hS1, (hmean cc s hn hcells).1, (hmean cc s hn hcells).2, hsame]
  have hmapT : (basin_cells s id).map (fun p => s1.m_theta_ocean p.1 p.2) =
      (basin_cells s id).map (fun p => s.m_theta_ocean p.1 p.2) :=
    List.map_congr_left (fun p hp => (hagree p hp).1)
  have hmapS : (basin_cells s id).map (fun p => s1.m_salinity_ocean p.1 p.2) =
      (basin_cells s id).map (fun p => s.m_salinity_ocean p.1 p.2) :=
    List.map_congr_left (fun p hp => (hagree p hp).2)
  rw [hmapT, hmapS]
  exact ⟨rfl, rfl⟩

/-- Witness of `compute_ocean_input_per_basin_mean`: the basin 1 of
`sample_pico_shelf`, whose two cells have ocean temperatures of 270 K and 272 K;
the mean is 271 K. -/
theorem compute_ocean_input_per_basin_mean_witness :
    (compute_ocean_input_per_basin (Constants.Constants (sample_config ℚ))
        (sample_pico_shelf ℚ)).Toc_box0_vec 1 = 271 := by
  have h := (compute_ocean_input_per_basin_mean (Constants.Constants (sample_config ℚ))
    (sample_pico_shelf ℚ) 1 (by decide) (by simp [sample_pico_shelf, sample_pico])
    (by simp [basin_cells, sample_pico_shelf, sample_pico])).1
  rw [h]
  simp [basin_cells, sample_pico_shelf, sample_pico]
  norm_num

/-- Claim C13 fails on the code: the check of the basin numbers in `init_impl` is
commented out.  With two basins configured (allowed numbers 0 and 1) and an
input file whose field `basins` holds 25, `init_impl` returns a state without
an error, and in that state both `compute_ocean_input_per_basin` and
`set_ocean_input_fields` index their per-basin vectors with 25, outside of the
allowed range. -/
theorem init_impl_accepts_invalid_basins :
    ∃ st : Pico ℝ,
      init_impl (sample_config ℝ) sample_external sample_init_input
          (sample_pico_shelf ℝ) = Except.ok st ∧
        st.numberOfBasins = 2 ∧
        25 ∈ compute_ocean_input_per_basin_indices st ∧
        25 ∈ set_ocean_input_fields_indices st ∧
        ¬ ((0 : Int) ≤ 25 ∧ (25 : Int) < st.numberOfBasins) := by
  refine ⟨_, rfl, rfl, ?_, ?_, ?_⟩
  · simp [compute_ocean_input_per_basin_indices, initBasinsOptions, sample_external,
      sample_init_input, sample_pico_shelf, sample_pico]
  · simp [set_ocean_input_fields_indices, initBasinsOptions, sample_external,
      sample_init_input, sample_pico_shelf, sample_pico]
  · simp [initBasinsOptions, sample_external, Constants.Constants, sample_config]

end Pico
end ocean

/-! ## Properties of the PIK surface model -/

namespace surface
namespace PIK

variable {R : Type} [LinearOrderedField R]

/-- The loop of lines 98-101 over a list of points writes the parameterized
temperature at every visited cell, and writes neither the grid nor the mass
flux. -/
theorem update_impl_foldl (usurf lat : Field R) :
    ∀ (points : List (Int × Int)) (st : PIK R),
      (points.foldl
        (fun (s : PIK R) p => { s with
          m_temperature := Field.set s.m_temperature p.1 p.2
            (273.15 + 30 - 0.0075 * usurf p.1 p.2 - 0.68775 * lat p.1 p.2 * (-1.0)) })
        st).m_mass_flux = st.m_mass_flux ∧
      ∀ i j : Int,
        ((i, j) ∈ points ∨ st.m_temperature i j =
          273.15 + 30 - 0.0075 * usurf i j - 0.68775 * lat i j * (-1.0)) →
        (points.foldl
          (fun (s : PIK R) p => { s with
            m_temperature := Field.set s.m_temperature p.1 p.2
              (273.15 + 30 - 0.0075 * usurf p.1 p.2 - 0.68775 * lat p.1 p.2 * (-1.0)) })
          st).m_temperature i j =
          273.15 + 30 - 0.0075 * usurf i j - 0.68775 * lat i j * (-1.0) := by
  intro points
  induction points with
  | nil =>
    intro st
    refine ⟨rfl, ?_⟩
    intro i j h
    rcases h with h | h
    · cases h
    · exact h
  | cons p points ih =>
    intro st
    simp only [List.foldl_cons]
    obtain ⟨h1, h2⟩ := ih { st with
      m_temperature := Field.set st.m_temperature p.1 p.2
        (273.15 + 30 - 0.0075 * usurf p.1 p.2 - 0.68775 * lat p.1 p.2 * (-1.0)) }
    refine ⟨h1, ?_⟩
    intro i j h
    apply h2 i j
    by_cases hp : i = p.1 ∧ j = p.2
    · right
      obtain ⟨rfl, rfl⟩ := hp
      simp [Field.set]
    · rcases h with h | h
      · rcases List.mem_cons.mp h with rfl | h
        · exact absurd ⟨rfl, rfl⟩ hp
        · exact Or.inl h
      · right
        simp only [Field.set, hp, if_false]
        exact h

/-- The temperature after an update that is not skipped. -/
theorem update_impl_temperature_value (geometry : Geometry R) (t dt : R) (s : PIK R)
    (i j : Int) (hskip : update_skipped s t dt = false) (hmem : (i, j) ∈ s.grid) :
    (update_impl geometry t dt s).m_temperature i j =
      273.15 + 30 - 0.0075 * geometry.ice_surface_elevation i j -
        0.68775 * geometry.latitude i j * (-1.0) := by
  unfold update_impl
  simp only [hskip, Bool.false_eq_true, if_false]
  exact (update_impl_foldl geometry.ice_surface_elevation geometry.latitude s.grid
    { s with m_t := t, m_dt := dt }).2 i j (Or.inl hmem)

/-- An update does not write the mass flux. -/
theorem update_impl_mass_flux (geometry : Geometry R) (t dt : R) (s : PIK R) :
    (update_impl geometry t dt s).m_mass_flux = s.m_mass_flux := by
  unfold update_impl
  split
  · rfl
  · exact (update_impl_foldl geometry.ice_surface_elevation geometry.latitude s.grid
      { s with m_t := t, m_dt := dt }).1

/-- Claim C15: after an `update_impl` call that is not skipped, the ice surface
temperature at every grid cell `(i, j)` is
`273.15 + 30 - 0.0075 * usurf(i,j) - 0.68775 * lat(i,j) * (-1.0)`, that is
`303.15 - 0.0075 * usurf + 0.68775 * lat`.  Compared with any other call that is
not skipped (another state, time, time step and geometry), the temperature is
the same when the surface elevation and the latitude at the cell are the same,
strictly lower when the elevation is higher at the same latitude, and strictly
higher when the latitude is higher at the same elevation. -/
theorem update_impl_temperature (geometry : Geometry R) (t dt : R) (s : PIK R)
    (i j : Int) (hskip : update_skipped s t dt = false) (hmem : (i, j) ∈ s.grid) :
    (update_impl geometry t dt s).m_temperature i j =
        273.15 + 30 - 0.0075 * geometry.ice_surface_elevation i j -
          0.68775 * geometry.latitude i j * (-1.0) ∧
      (update_impl geometry t dt s).m_temperature i j =
        303.15 - 0.0075 * geometry.ice_surface_elevation i j +
          0.68775 * geometry.latitude i j ∧
      ∀ (geometry1 : Geometry R) (t1 dt1 : R) (s1 : PIK R),
        update_skipped s1 t1 dt1 = false → (i, j) ∈ s1.grid →
        (geometry1.ice_surface_elevation i j = geometry.ice_surface_elevation i j →
          geometry1.latitude i j = geometry.latitude i j →
          (update_impl geometry1 t1 dt1 s1).m_temperature i j =
            (update_impl geometry t dt s).m_temperature i j) ∧
        (geometry.ice_surface_elevation i j < geometry1.ice_surface_elevation i j →
          geometry1.latitude i j = geometry.latitude i j →
          (update_impl geometry1 t1 dt1 s1).m_temperature i j <
            (update_impl geometry t dt s).m_temperature i j) ∧
        (geometry1.ice_surface_elevation i j = geometry.ice_surface_elevation i j →
          geometry.latitude i j < geometry1.latitude i j →
          (update_impl geometry t dt s).m_temperature i j <
            (update_impl geometry1 t1 dt1 s1).m_temperature i j) := by
  have hval := update_impl_temperature_value geometry t dt s i j hskip hmem
  refine ⟨hval, ?_, ?_⟩
  · rw [hval]
    ring_nf
  · intro geometry1 t1 dt1 s1 hskip1 hmem1
    have hval1 := update_impl_temperature_value geometry1 t1 dt1 s1 i j hskip1 hmem1
    rw [hval, hval1]
    refine ⟨?_, ?_, ?_⟩
    · intro hu hl
      rw [hu, hl]
    · intro hu hl
      rw [hl]
      have h1 : (0 : R) < 0.0075 := by norm_num
      nlinarith
    · intro hu hl
      rw [hu]
      have h1 : (0 : R) < 0.68775 := by norm_num
      have h2 : (-1.0 : R) = -1 := by norm_num
      rw [h2]
      nlinarith

/-- Witness of `update_impl_temperature`: the cell `(0, 0)` of `sample_pik`, at
1000 m and 75 degrees south, has a temperature of 244.06875 K after the first
update. -/
theorem update_impl_temperature_witness :
    (update_impl (sample_geometry ℚ) 0 1 (sample_pik ℚ)).m_temperature 0 0 =
      244.06875 := by
  have h := (update_impl_temperature (sample_geometry ℚ) 0 1 (sample_pik ℚ) 0 0
    (by
      simp only [update_skipped, sample_pik, decide_eq_false_iff_not, not_and]
      intro h
      norm_num [abs_lt] at h)
    (by simp [sample_pik])).2.1
  rw [h]
  norm_num [sample_geometry]

/-- Claim C16: the surface mass balance is constant in time.  After `init_impl`
has read the field `m_mass_flux` from the input file, any sequence of calls of
`update_impl` (any geometries, times and time steps) leaves it as it was read,
so `mass_flux_impl` returns the same field before and after the updates. -/
theorem update_impl_mass_flux_constant (opts : InputOptions R) (s s0 : PIK R)
    (updates : List (Geometry R × R × R)) (hinit : init_impl opts s = Except.ok s0) :
    mass_flux_impl (updates.foldl (fun st u => update_impl u.1 u.2.1 u.2.2 st) s0) =
        mass_flux_impl s0 ∧
      (opts.type = InitializationType.INIT_BOOTSTRAP →
        opts.regridded = some (mass_flux_impl s0)) ∧
      (opts.type ≠ InitializationType.INIT_BOOTSTRAP →
        opts.read opts.record = some (mass_flux_impl s0)) := by
  refine ⟨?_, ?_, ?_⟩
  · clear hinit
    induction updates generalizing s0 with
    | nil => rfl
    | cons u updates ih =>
      rw [List.foldl_cons, ih]
      exact update_impl_mass_flux u.1 u.2.1 u.2.2 s0
  · intro hb
    unfold init_impl at hinit
    rw [if_pos hb] at hinit
    cases hr : opts.regridded with
    | none => rw [hr] at hinit; cases hinit
    | some field =>
      rw [hr] at hinit
      injection hinit with hinit
      rw [← hinit]
      rfl
  · intro hb
    unfold init_impl at hinit
    rw [if_neg hb] at hinit
    cases hr : opts.read opts.record with
    | none => rw [hr] at hinit; cases hinit
    | some field =>
      rw [hr] at hinit
      injection hinit with hinit
      rw [← hinit]
      rfl

/-- Witness of `update_impl_mass_flux_constant`: bootstrapping from a file with
a mass balance of `0.01` everywhere, then two updates. -/
theorem update_impl_mass_flux_constant_witness :
    mass_flux_impl
        ([(sample_geometry ℚ, (0 : ℚ), (1 : ℚ)), (sample_geometry ℚ, 1, 1)].foldl
          (fun st u => update_impl u.1 u.2.1 u.2.2 st)
          { sample_pik ℚ with m_mass_flux := fun _ _ => 0.01 }) =
      mass_flux_impl { sample_pik ℚ with m_mass_flux := fun _ _ => 0.01 } :=
  (update_impl_mass_flux_constant (sample_input_options ℚ) (sample_pik ℚ)
    { sample_pik ℚ with m_mass_flux := fun _ _ => 0.01 }
    [(sample_geometry ℚ, 0, 1), (sample_geometry ℚ, 1, 1)] rfl).1

end PIK
end surface
end pism

/-! ## Properties of `pclimate` -/

namespace pclimate

variable {R : Type} [LinearOrderedField R]

/-- The number of values visited by `for (k = 0; k < n; k++)` is `max(n, 0)`. -/
theorem length_intRange_zero (n : Int) :
    ((pism.ocean.intRange 0 n).length : Int) = max n 0 := by
  have h : ∀ l : List Nat, (l.flatMap (fun a => [(a : Int)])).length = l.length := by
    intro l
    induction l with
    | nil => rfl
    | cons a l ih => simp [List.flatMap_cons, ih]
  unfold pism.ocean.intRange
  rw [List.length_map]
  simp only [List.bind_eq_flatMap, List.pure_def]
  rw [h, List.length_range]
  omega

/-- When every call succeeds, the loop over the rounds completes all of them
and returns `0`. -/
theorem write_rounds_succeed (calls : Calls R) (time_start time_end dt : R)
    (hcalls : calls.succeed) :
    ∀ (ks : List Int) (events : List (Event R)),
      write_rounds calls time_start time_end dt ks events =
        (0, events ++ ks.flatMap (round_events time_start time_end dt)) := by
  obtain ⟨_, _, _, _, h5, h6, h7, h8, _⟩ := hcalls
  intro ks
  induction ks with
  | nil => intro events; simp [write_rounds]
  | cons k ks ih =>
    intro events
    unfold write_rounds
    simp only [h5, h6, h7, h8, ne_eq, not_true_eq_false, if_false]
    rw [ih]
    simp [round_events, List.append_assoc]

/-- The loop over the rounds only runs when it is reached: the events of
`writePCCStateAtTimes` are empty when `NN > 1000`, whatever the calls return. -/
theorem writePCCStateAtTimes_no_event [FloorRing R] (available : Available) (calls : Calls R)
    (time_start time_end dt : R) (hNN : 1000 < NN time_start time_end dt) :
    (writePCCStateAtTimes available calls time_start time_end dt).2 = [] := by
  unfold writePCCStateAtTimes
  simp only [hNN, if_true]
  repeat' split
  all_goals rfl

/-- Claim C17: when the five required fields are available and every checked
call succeeds, `writePCCStateAtTimes` returns the error code 2 if and only if
`NN = ceil((time_end - time_start) / dt)` is greater than 1000; in that case it
performs no update of the surface or ocean model (nor any write), and when
`NN <= 1000` it returns 0 after exactly `max(NN, 0)` complete rounds, one for
each `k` from `0` to `NN - 1`, each made of a surface update, an ocean update
and the writes. -/
theorem writePCCStateAtTimes_refuses [FloorRing R] (available : Available) (calls : Calls R)
    (time_start time_end dt : R)
    (havail : available.usurf = true ∧ available.artm = true ∧ available.acab = true ∧
      available.shelfbasetemp = true ∧ available.shelfbasemassflux = true)
    (hcalls : calls.succeed) :
    ((writePCCStateAtTimes available calls time_start time_end dt).1 = 2 ↔
        1000 < NN time_start time_end dt) ∧
      (1000 < NN time_start time_end dt →
        (writePCCStateAtTimes available calls time_start time_end dt).2 = []) ∧
      (NN time_start time_end dt ≤ 1000 →
        (writePCCStateAtTimes available calls time_start time_end dt).1 = 0 ∧
        (writePCCStateAtTimes available calls time_start time_end dt).2 =
          (pism.ocean.intRange 0 (NN time_start time_end dt)).flatMap
            (round_events time_start time_end dt) ∧
        ((pism.ocean.intRange 0 (NN time_start time_end dt)).length : Int) =
          max (NN time_start time_end dt) 0) := by
  obtain ⟨a1, a2, a3, a4, a5⟩ := havail
  have hrounds := write_rounds_succeed calls time_start time_end dt hcalls
    (pism.ocean.intRange 0 (NN time_start time_end dt)) []
  obtain ⟨c1, c2, c3, c4, _, _, _, _, c9⟩ := hcalls
  have hsmall : NN time_start time_end dt ≤ 1000 →
      writePCCStateAtTimes available calls time_start time_end dt =
        (0, (pism.ocean.intRange 0 (NN time_start time_end dt)).flatMap
          (round_events time_start time_end dt)) := by
    intro h
    have h2 : ¬ (1000 < NN time_start time_end dt) := not_lt.mpr h
    unfold writePCCStateAtTimes
    simp [a1, a2, a3, a4, a5, c1, c2, c3, c4, c9, h2, hrounds]
  have hlarge : 1000 < NN time_start time_end dt →
      writePCCStateAtTimes available calls time_start time_end dt = (2, []) := by
    intro h
    unfold writePCCStateAtTimes
    simp [a1, a2, a3, a4, a5, c1, c2, c3, h]
  refine ⟨?_, ?_, ?_⟩
  · constructor
    · intro h
      by_contra hle
      rw [hsmall (not_lt.mp hle)] at h
      simp at h
    · intro h
      rw [hlarge h]
  · intro h
    rw [hlarge h]
  · intro h
    rw [hsmall h]
    exact ⟨rfl, rfl, length_intRange_zero _⟩

/-- Witness of `writePCCStateAtTimes_refuses`: from time 0 to time 2000 with a
step of 1, `NN = 2000` and the function returns the error code 2 without any
event. -/
theorem writePCCStateAtTimes_refuses_witness :
    writePCCStateAtTimes sample_available (sample_calls ℚ) 0 2000 1 = (2, []) := by
  have h := writePCCStateAtTimes_refuses sample_available (sample_calls ℚ) 0 2000 1
    ⟨rfl, rfl, rfl, rfl, rfl⟩
    ⟨rfl, rfl, rfl, rfl, fun _ => rfl, fun _ _ => rfl, fun _ _ => rfl, fun _ => rfl, rfl⟩
  have hNN : 1000 < NN (0 : ℚ) 2000 1 := by
    norm_num [NN]
  exact Prod.ext (h.1.mpr hNN) (h.2.1 hNN)

/-- From time 0 to time 2 with a step of 1, `NN = 2` and the function performs
two complete rounds. -/
theorem writePCCStateAtTimes_two_rounds :
    writePCCStateAtTimes sample_available (sample_calls ℚ) 0 2 1 =
      (0, [Event.surface_update 0 1, Event.ocean_update 0 1, Event.state_written 0,
        Event.surface_update 1 1, Event.ocean_update 1 1, Event.state_written 1]) := by
  have hNN : NN (0 : ℚ) 2 1 = 2 := by
    norm_num [NN]
  unfold writePCCStateAtTimes
  rw [hNN]
  have hrange : pism.ocean.intRange 0 2 = [0, 1] := by decide
  rw [hrange]
  norm_num [sample_available, sample_calls, write_rounds, PetscMin]

end pclimate
